import Mathlib

/-
Verification development for the SmartCFO conversational finance assistant.

Shallow embedding of the tool-calling core:
  * fuzzy matcher (Levenshtein scoring, search-term classification)
    from src/lib/ai/tools/income.ts and the client-tools module,
  * the PCM playback worklet from src/public/pcm-processor.js,
  * the voice-agent function dispatcher from
    src/app/(chat)/api/voice-agent/function/route.ts,
  * the datastore-backed tools (income, invoices, clients, project
    sub-entities) as pure state transformers over an explicit store.

JavaScript strings are modelled as `List Char`, JS numbers as `ℚ`
(all arithmetic the claims touch is exact decimal arithmetic), ids as `Nat`.
-/

namespace SmartCFO

/-- JS strings, modelled as lists of characters. -/
abbrev Str := List Char

/-- `s.toLowerCase()`. -/
def lowerStr (s : Str) : Str := s.map Char.toLower

/-- `isSubAt s t` : `s` matches a prefix of `t` (helper for substring search). -/
def isSubAt : Str → Str → Bool
  | [], _ => true
  | _ :: _, [] => false
  | c :: cs, d :: ds => c == d && isSubAt cs ds

/-- `strIncludes t s` = JS `t.includes(s)`: `s` occurs contiguously in `t`. -/
def strIncludes : Str → Str → Bool
  | t, s =>
    isSubAt s t ||
      match t with
      | [] => false
      | _ :: ts => strIncludes ts s

/-- JS truthiness of an optional string (`undefined`/`null`/`""` are falsy). -/
def truthy : Option Str → Bool
  | none => false
  | some s => !s.isEmpty

/-- JS `a || b` for an optional string `a` with default `b`. -/
def orStr (a : Option Str) (b : Str) : Str :=
  match a with
  | some s => if s.isEmpty then b else s
  | none => b

/-- JS `Math.round` on an exact rational: round half toward +∞. -/
def jsRound (q : ℚ) : ℤ := ⌊q + 1 / 2⌋

/-!  ## Levenshtein distance (src/lib/ai/tools/income.ts lines 487-517)

The source fills a dp matrix row by row:
`dp[i][0] = i`, `dp[0][j] = j`,
`dp[i][j] = dp[i-1][j-1]` when `s1[i-1] === s2[j-1]`, else
`1 + min(dp[i-1][j], dp[i][j-1], dp[i-1][j-1])`.
`levStepRow` computes the cells `dp[i][1..n]` of one row from the previous
row, `levRowNext` prepends the `dp[i][0] = i` cell, `levFold` iterates over
the rows, and the result is `dp[m][n]`, the last cell of the last row. -/

/-- Inner column loop: `ys` is the rest of `s2`, `pPrev = dp[i-1][j-1]`,
`p :: ps = dp[i-1][j..n]`, `left = dp[i][j-1]`; produces `dp[i][j..n]`. -/
def levStepRow (c : Char) : Str → Nat → List Nat → Nat → List Nat
  | [], _, _, _ => []
  | _ :: _, _, [], _ => []
  | y :: ys, pPrev, p :: ps, left =>
    let cell := if c == y then pPrev else 1 + min p (min left pPrev)
    cell :: levStepRow c ys p ps cell

/-- Row `i` of the dp matrix from row `i-1` (`prev`). -/
def levRowNext (c : Char) (s2 : Str) (prev : List Nat) (i : Nat) : List Nat :=
  i :: levStepRow c s2 (prev.headD 0) prev.tail i

/-- Outer row loop over the characters of `s1`. -/
def levFold (s2 : Str) : Str → Nat → List Nat → List Nat
  | [], _, prev => prev
  | c :: cs, i, prev => levFold s2 cs (i + 1) (levRowNext c s2 prev i)

/-- `levenshteinDistance(str1, str2)`: both arguments are lowercased, then
the dp matrix is filled; the answer is `dp[m][n]`. -/
def levenshteinDistance (str1 str2 : Str) : Nat :=
  let s1 := lowerStr str1
  let s2 := lowerStr str2
  (levFold s2 s1 1 (List.range (s2.length + 1))).getLastD 0

/-- `calculateLevenshteinScore(search, target)`
(src/lib/ai/tools/income.ts lines 523-541): exact case-insensitive match
100, containment 90, otherwise the rounded distance ratio floored at 0. -/
def calculateLevenshteinScore (search target : Str) : ℤ :=
  let s := lowerStr search
  let t := lowerStr target
  if s = t then 100
  else if strIncludes t s || strIncludes s t then 90
  else
    let distance := levenshteinDistance s t
    let maxLength := max s.length t.length
    if maxLength = 0 then 100
    else max 0 (jsRound ((1 - (distance : ℚ) / (maxLength : ℚ)) * 100))

/-- `calculateMatchScore(search, target)` from the client-tools module:
the same algorithm as `calculateLevenshteinScore`, re-implemented there. -/
def calculateMatchScore (search target : Str) : ℤ :=
  let s := lowerStr search
  let t := lowerStr target
  if s = t then 100
  else if strIncludes t s || strIncludes s t then 90
  else
    let distance := levenshteinDistance s t
    let maxLength := max s.length t.length
    if maxLength = 0 then 100
    else max 0 (jsRound ((1 - (distance : ℚ) / (maxLength : ℚ)) * 100))

/-!  ## Search-term classification (client-tools module, `detectSearchType`) -/

/-- Result of classifying a free-text search term. -/
inductive SearchType where
  | email
  | phone
  | name
deriving DecidableEq, Repr

/-- `term.replace(/[\s\-\+\(\)]/g, "")`: strip whitespace, `-`, `+`, `(`, `)`. -/
def stripPhoneChars (term : Str) : Str :=
  term.filter (fun c => !(c.isWhitespace || c == '-' || c == '+' || c == '(' || c == ')'))

/-- `detectSearchType(term)`: email when the term contains both `@` and `.`;
phone when the stripped term is at least 7 characters, all digits; else name. -/
def detectSearchType (term : Str) : SearchType :=
  if term.contains '@' && term.contains '.' then .email
  else
    let digitsOnly := stripPhoneChars term
    if 7 ≤ digitsOnly.length ∧ digitsOnly.all Char.isDigit = true then .phone
    else .name

/-!  ## PCM playback worklet (src/public/pcm-processor.js)

State of `PCMPlayerProcessor`: an append-only buffer with a separate read
cursor and a playing flag.  Samples are JS floats; the processor never does
arithmetic on them, so they are modelled as exact rationals.
`MIN_BUFFER_TO_START` is `24000 * 0.3`, which in IEEE doubles evaluates to
exactly `7200`. -/

structure PCMState where
  buffer : List ℚ
  readIndex : Nat
  isPlaying : Bool
deriving DecidableEq, Repr

def MIN_BUFFER_TO_START : Nat := 7200

def COMPACT_THRESHOLD : Nat := 48000

/-- The `'clear'` message (barge-in): drop the buffer, reset the cursor,
stop playing. -/
def pcmClear (_s : PCMState) : PCMState :=
  { buffer := [], readIndex := 0, isPlaying := false }

/-- A data message: push all samples, start playing once the unread count
reaches the threshold, then compact if the cursor has moved far enough. -/
def pcmAppend (samples : List ℚ) (s : PCMState) : PCMState :=
  let buffer := s.buffer ++ samples
  let availableSamples := buffer.length - s.readIndex
  let isPlaying :=
    if s.isPlaying = false ∧ MIN_BUFFER_TO_START ≤ availableSamples then true
    else s.isPlaying
  if COMPACT_THRESHOLD < s.readIndex then
    { buffer := buffer.drop s.readIndex, readIndex := 0, isPlaying := isPlaying }
  else
    { buffer := buffer, readIndex := s.readIndex, isPlaying := isPlaying }

/-- The render-callback copy loop: one output sample per iteration, from the
buffer while the cursor is in range, silence (0) on underrun. -/
def pcmReadLoop : Nat → List ℚ → Nat → List ℚ × Nat
  | 0, _, r => ([], r)
  | n + 1, buf, r =>
    if h : r < buf.length then
      let rest := pcmReadLoop n buf (r + 1)
      (buf.get ⟨r, h⟩ :: rest.1, rest.2)
    else
      let rest := pcmReadLoop n buf r
      ((0 : ℚ) :: rest.1, rest.2)

/-- `process`: silence while not playing, otherwise the copy loop. -/
def pcmProcess (n : Nat) (s : PCMState) : List ℚ × PCMState :=
  if s.isPlaying = false then (List.replicate n 0, s)
  else
    let res := pcmReadLoop n s.buffer s.readIndex
    (res.1, { s with readIndex := res.2 })

/-- One operation against the playback processor. -/
inductive PCMOp where
  | append (samples : List ℚ)
  | read (n : Nat)

/-- Run a sequence of operations, concatenating all rendered output. -/
def pcmRun : List PCMOp → PCMState → List ℚ × PCMState
  | [], s => ([], s)
  | PCMOp.append xs :: ops, s => pcmRun ops (pcmAppend xs s)
  | PCMOp.read n :: ops, s =>
    let step := pcmProcess n s
    let rest := pcmRun ops step.2
    (step.1 ++ rest.1, rest.2)

/-- All samples appended by a sequence of operations. -/
def pcmAppended : List PCMOp → List ℚ
  | [] => []
  | PCMOp.append xs :: ops => xs ++ pcmAppended ops
  | PCMOp.read _ :: ops => pcmAppended ops

/-!  ## Voice-agent function dispatcher
(src/app/(chat)/api/voice-agent/function/route.ts)

The request body's `parameters` is a JSON object, modelled as a partial map
from keys to values.  The handler builds
`safeParams = { ...parameters, userId: session.user.id }` and passes it to
`executeVoiceTool`. -/

def userIdKey : Str := "userId".toList

/-- Object spread update: `{ ...params, k: v }`. -/
def setParam {V : Type} (params : Str → Option V) (k : Str) (v : V) :
    Str → Option V :=
  fun q => if q = k then some v else params q

/-- `safeParams`: the caller-supplied parameters with `userId` overwritten by
the authenticated session's user id. -/
def safeParams {V : Type} (parameters : Str → Option V) (sessionUserId : V) :
    Str → Option V :=
  setParam parameters userIdKey sessionUserId

/-!  ## Datastore model

The tools run against a Supabase datastore.  Rows are modelled as records,
tables as lists, the store as a record of tables; an insert appends a row
(new rows receive the id `seq`, a counter the model increments), an update
maps over a table, and the external clock/calendar/formatting collaborators
live in an explicit environment record. -/

structure UserSettingsRow where
  user_id : Nat
  base_currency : Option Str
  is_tax_registered : Bool
deriving DecidableEq, Repr

structure InvoiceSettingsRow where
  user_id : Nat
  default_tax_rate : Option ℚ
  payment_terms : Option Nat
  next_number : Option Nat
deriving DecidableEq, Repr

structure ClientRow where
  id : Nat
  user_id : Nat
  name : Str
  email : Option Str
  phone : Option Str
  company_name : Option Str
  address : Option Str
  deleted_at : Option Nat
deriving DecidableEq, Repr

structure CategoryRow where
  id : Nat
  user_id : Nat
  name : Str
  type : Str
  deleted_at : Option Nat
deriving DecidableEq, Repr

structure IncomeRow where
  id : Nat
  user_id : Nat
  amount : ℚ
  description : Str
  date : Str
  currency : Str
  tax_rate : ℚ
  tax_amount : ℚ
  client_id : Option Nat
  category_id : Option Nat
  project_id : Option Nat
  reference_number : Option Str
  exchange_rate : ℚ
  base_amount : ℚ
  deleted_at : Option Nat
deriving DecidableEq, Repr

/-- Modelled from the spec: `total_with_tax` is a generated column the
database computes from the stored base amount and tax amount
(`totalWithTax` is "a derived value (amount + amount*taxRate/100)"); the
generating expression itself is in the external schema, not under `src/`.
The tool code computes and returns `amount + taxAmount` for the same row. -/
def IncomeRow.total_with_tax (r : IncomeRow) : ℚ := r.amount + r.tax_amount

structure InvoiceRow where
  id : Nat
  user_id : Nat
  invoice_number : Str
  client_id : Option Nat
  date : Str
  due_date : Str
  status : Str
  subtotal : ℚ
  tax_rate : ℚ
  tax_amount : ℚ
  total : ℚ
  balance_due : Option ℚ
  amount_paid : Option ℚ
  currency : Str
  notes : Option Str
  project_id : Option Nat
  income_category_id : Option Nat
  exchange_rate : ℚ
  base_amount : ℚ
  paid_date : Option Str
  actual_paid_date : Option Str
  payment_locked_at : Option Nat
  deleted_at : Option Nat
deriving DecidableEq, Repr

structure InvoiceItemRow where
  invoice_id : Nat
  description : Str
  quantity : ℚ
  rate : ℚ
  amount : ℚ
  tax_rate : ℚ
  tax_amount : ℚ
  net_amount : ℚ
  gross_amount : ℚ
deriving DecidableEq, Repr

structure PaymentRow where
  invoice_id : Nat
  user_id : Nat
  amount : ℚ
  payment_date : Str
  payment_method : Option Str
  reference_number : Option Str
deriving DecidableEq, Repr

/-- Calculated line item (`calculatedItems` in `createInvoice`). -/
structure CalcItem where
  description : Str
  quantity : ℚ
  rate : ℚ
  amount : ℚ
  tax_rate : ℚ
  tax_amount : ℚ
  net_amount : ℚ
  gross_amount : ℚ
deriving DecidableEq, Repr

/-- The `template_data` JSON blob of a recurring schedule. -/
structure TemplateData where
  items : List CalcItem
  subtotal : ℚ
  tax_rate : ℚ
  tax_amount : ℚ
  total : ℚ
  currency : Str
  notes : Option Str
  payment_terms : Nat
  income_category_id : Option Nat
deriving DecidableEq, Repr

structure RecurringRow where
  id : Nat
  user_id : Nat
  invoice_id : Nat
  client_id : Nat
  template_data : TemplateData
  frequency : Str
  next_date : Str
  end_date : Option Str
  is_active : Bool
deriving DecidableEq, Repr

structure MilestoneRow where
  id : Nat
  user_id : Nat
  name : Str
  project_id : Nat
  deleted_at : Option Nat
deriving DecidableEq, Repr

structure GoalRow where
  id : Nat
  user_id : Nat
  title : Str
  deleted_at : Option Nat
deriving DecidableEq, Repr

structure TimeEntryRow where
  id : Nat
  user_id : Nat
  hours : ℚ
  date : Str
  deleted_at : Option Nat
deriving DecidableEq, Repr

structure NoteRow where
  id : Nat
  user_id : Nat
  title : Str
  type : Str
  deleted_at : Option Nat
deriving DecidableEq, Repr

structure TeamMemberRow where
  user_id : Nat
  team_id : Nat
  status : Str
deriving DecidableEq, Repr

structure Store where
  user_settings : List UserSettingsRow
  invoice_settings : List InvoiceSettingsRow
  clients : List ClientRow
  categories : List CategoryRow
  income : List IncomeRow
  invoices : List InvoiceRow
  invoice_items : List InvoiceItemRow
  invoice_payments : List PaymentRow
  recurring_invoices : List RecurringRow
  project_milestones : List MilestoneRow
  project_goals : List GoalRow
  project_time_entries : List TimeEntryRow
  project_notes : List NoteRow
  team_members : List TeamMemberRow
  seq : Nat
deriving DecidableEq, Repr

/-- External collaborators: the clock/calendar (`new Date()` defaults, the
`+ paymentTerms days` due-date computation, the frequency-specific
`calculateNextDate`), the `get_next_invoice_number` RPC, and the shared
formatting helpers (`formatCurrency`, `formatDate`, number-to-string
interpolation).  Modelled from the spec: all of these are read-only pure
collaborators; in particular the number RPC reads the user's settings and
never mutates (the tool updates `next_number` itself after inserting). -/
structure Env where
  today : Str
  nowTs : Nat
  nextInvoiceNumber : Nat → Store → Str
  calcDueDate : Str → Nat → Str
  calcNextDate : Str → Str → Str
  formatCurrency : ℚ → Str → Str
  formatDate : Str → Str
  numToStr : ℚ → Str

/-- Supabase `.single()`: exactly one row, else an error (`none`). -/
def single {α : Type} (l : List α) : Option α :=
  match l with
  | [x] => some x
  | _ => none

/-- JS `x || null` on an optional string: empty strings become `null`. -/
def jsOrNull (a : Option Str) : Option Str :=
  match a with
  | some s => if s.isEmpty then none else some s
  | none => none

/-- `getEffectiveUserId` (src/lib/ai/tools/invoices.ts lines 14-27): the
active team membership's team id if there is exactly one, else the user id. -/
def getEffectiveUserId (userId : Nat) (st : Store) : Nat :=
  match st.team_members.filter
      (fun tm => tm.user_id == userId && tm.status == "active".toList) with
  | [tm] => if tm.team_id = 0 then userId else tm.team_id
  | _ => userId

/-- Joined `clients(name)` with a `|| fallback`. -/
def joinedClientName (st : Store) (clientId : Option Nat) (fallback : Str) : Str :=
  match clientId with
  | some cid =>
    match st.clients.find? (fun c => c.id == cid) with
    | some c => if c.name.isEmpty then fallback else c.name
    | none => fallback
  | none => fallback

/-- Stable descending insertion by an integer key (JS `Array.prototype.sort`
with comparator `(a, b) => key(b) - key(a)`; modern engines sort stably). -/
def insertScoreDesc {α : Type} (key : α → ℤ) (x : α) : List α → List α
  | [] => [x]
  | y :: ys => if key y ≤ key x then x :: y :: ys else y :: insertScoreDesc key x ys

/-- Stable descending sort by an integer key. -/
def sortByScoreDesc {α : Type} (key : α → ℤ) (l : List α) : List α :=
  l.foldr (insertScoreDesc key) []

/-- Textbook ("classic") Levenshtein distance of the length-`i` prefix of `s`
against the length-`j` prefix of `t`: unit-cost insert/delete/substitute.
Reference definition used to check the dp against the spec's wording. -/
def levSpecAux (s t : Str) : Nat → Nat → Nat
  | 0, j => j
  | i + 1, 0 => i + 1
  | i + 1, j + 1 =>
    if s.getD i ' ' = t.getD j ' ' then levSpecAux s t i j
    else 1 + min (levSpecAux s t i (j + 1))
      (min (levSpecAux s t (i + 1) j) (levSpecAux s t i j))
  termination_by i j => (i, j)

/-!  ## addIncome (src/lib/ai/tools/income.ts lines 17-260) -/

structure AddIncomeInput where
  amount : ℚ
  description : Str
  date : Option Str
  clientName : Option Str
  categoryName : Option Str
  projectId : Option Nat
  referenceNumber : Option Str
  currency : Option Str
  taxRate : Option ℚ
  confirmed : Bool
  userId : Nat
deriving DecidableEq, Repr

structure Suggestion where
  id : Nat
  name : Str
  score : ℤ
deriving DecidableEq, Repr

structure CatRef where
  id : Nat
  name : Str
deriving DecidableEq, Repr

/-- The `client` field of the preview payload. -/
inductive ClientField where
  | matched (id : Nat) (name : Str)
  | unmatched (name : Str) (suggestions : List Suggestion)
  | absent
deriving DecidableEq, Repr

/-- The `category` field of the preview payload. -/
inductive CategoryField where
  | matched (id : Nat) (name : Str)
  | unmatched (name : Str) (suggestions : List CatRef)
  | absent
deriving DecidableEq, Repr

structure IncomePreview where
  amount : ℚ
  currency : Str
  description : Str
  date : Str
  taxRate : ℚ
  taxAmount : ℚ
  totalWithTax : ℚ
  client : ClientField
  category : CategoryField
  projectId : Option Nat
  referenceNumber : Option Str
deriving DecidableEq, Repr

structure SavedIncome where
  id : Nat
  amount : Str
  totalWithTax : Str
  description : Str
  date : Str
  client : Option Str
  category : Option Str
deriving DecidableEq, Repr

inductive AddIncomeResult where
  | preview (p : IncomePreview) (message : Str) (warnings : List Str)
  | saved (income : SavedIncome) (message : Str)
  | error (msg : Str)
deriving DecidableEq, Repr

def buildWarnings (p : IncomePreview) : List Str :=
  (match p.client with
   | ClientField.unmatched n (_ :: _) =>
     ["Client \"".toList ++ n ++ "\" not found exactly. Suggestions available.".toList]
   | ClientField.unmatched n [] =>
     ["Client \"".toList ++ n ++ "\" not found. Will save without client or create new.".toList]
   | _ => []) ++
  (match p.category with
   | CategoryField.unmatched n _ =>
     ["Category \"".toList ++ n ++ "\" not found. Will save without category.".toList]
   | _ => [])

/-- Step 2 of `addIncome`: fuzzy client matching against the user's first
100 live clients — exact case-insensitive hit, else Levenshtein suggestions
filtered at 50, sorted descending, top 5, auto-match at 85. -/
def addIncomeClientMatch (clientName : Str) (clients : List ClientRow) :
    Option ClientRow × List Suggestion :=
  match clients with
  | [] => (none, [])
  | _ :: _ =>
    match clients.find? (fun c => lowerStr c.name == lowerStr clientName) with
    | some exact => (some exact, [])
    | none =>
      let clientSuggestions :=
        ((sortByScoreDesc (fun s => s.score)
          ((clients.map (fun c =>
            Suggestion.mk c.id c.name (calculateLevenshteinScore clientName c.name))).filter
            (fun s => decide (50 ≤ s.score)))).take 5)
      let matched :=
        match clientSuggestions with
        | s0 :: _ =>
          if 85 ≤ s0.score then clients.find? (fun c => c.id == s0.id) else none
        | [] => none
      (matched, clientSuggestions)

/-- Step 3 of `addIncome`: category matching via a case-insensitive
`ilike %name%` query limited to 5, exact hit preferred, else the first. -/
def addIncomeCategoryMatch (categoryName : Str) (userId : Nat) (st : Store) :
    Option CategoryRow × List CatRef :=
  let categories := ((st.categories.filter (fun c =>
    c.user_id == userId && c.type == "income".toList && c.deleted_at.isNone &&
      strIncludes (lowerStr c.name) (lowerStr categoryName))).take 5)
  match categories with
  | [] => (none, [])
  | c0 :: _ =>
    match categories.find? (fun c => lowerStr c.name == lowerStr categoryName) with
    | some exact => (some exact, [])
    | none => (some c0, categories.map (fun c => CatRef.mk c.id c.name))

def addIncomeExec (env : Env) (input : AddIncomeInput) (st : Store) :
    AddIncomeResult × Store :=
  let userSettings := single (st.user_settings.filter (fun r => r.user_id == input.userId))
  let invoiceSettings := single (st.invoice_settings.filter (fun r => r.user_id == input.userId))
  let baseCurrency :=
    orStr input.currency (orStr (userSettings.bind (fun r => r.base_currency)) "USD".toList)
  let defaultTaxRate :=
    input.taxRate.getD ((invoiceSettings.bind (fun r => r.default_tax_rate)).getD 0)
  let incomeDate := orStr input.date env.today
  let clientData :=
    if truthy input.clientName then
      addIncomeClientMatch (input.clientName.getD [])
        ((st.clients.filter (fun c => c.user_id == input.userId && c.deleted_at.isNone)).take 100)
    else (none, [])
  let matchedClient := clientData.1
  let catData :=
    if truthy input.categoryName then
      addIncomeCategoryMatch (input.categoryName.getD []) input.userId st
    else (none, [])
  let matchedCategory := catData.1
  let taxAmount := input.amount * defaultTaxRate / 100
  let totalWithTax := input.amount + taxAmount
  let preview : IncomePreview :=
    { amount := input.amount
      currency := baseCurrency
      description := input.description
      date := incomeDate
      taxRate := defaultTaxRate
      taxAmount := taxAmount
      totalWithTax := totalWithTax
      client :=
        match matchedClient with
        | some c => ClientField.matched c.id c.name
        | none =>
          if truthy input.clientName then
            ClientField.unmatched (input.clientName.getD []) clientData.2
          else ClientField.absent
      category :=
        match matchedCategory with
        | some c => CategoryField.matched c.id c.name
        | none =>
          if truthy input.categoryName then
            CategoryField.unmatched (input.categoryName.getD []) catData.2
          else CategoryField.absent
      projectId := input.projectId
      referenceNumber := jsOrNull input.referenceNumber }
  if input.confirmed = false then
    (AddIncomeResult.preview preview
      "Review the income details above. Say 'confirm' or 'save' to proceed.".toList
      (buildWarnings preview), st)
  else
    let row : IncomeRow :=
      { id := st.seq
        user_id := input.userId
        amount := input.amount
        description := input.description
        date := incomeDate
        currency := baseCurrency
        tax_rate := defaultTaxRate
        tax_amount := taxAmount
        client_id := matchedClient.map (fun c => c.id)
        category_id := matchedCategory.map (fun c => c.id)
        project_id := input.projectId
        reference_number := jsOrNull input.referenceNumber
        exchange_rate := 1
        base_amount := input.amount
        deleted_at := none }
    (AddIncomeResult.saved
      { id := row.id
        amount := env.formatCurrency input.amount baseCurrency
        totalWithTax := env.formatCurrency totalWithTax baseCurrency
        description := input.description
        date := env.formatDate incomeDate
        client := matchedClient.map (fun c => c.name)
        category := matchedCategory.map (fun c => c.name) }
      ("Income of ".toList ++ env.formatCurrency totalWithTax baseCurrency ++
        " recorded successfully!".toList),
      { st with income := st.income ++ [row], seq := st.seq + 1 })

/-!  ## updateIncome (src/lib/ai/tools/income.ts lines 561-707)

The JS preview payload is a field-keyed `{old, new}` map; the model carries
the loaded row and the computed change set, from which that map is derived. -/

structure UpdateIncomeInput where
  incomeId : Nat
  amount : Option ℚ
  description : Option Str
  date : Option Str
  clientId : Option Nat
  categoryId : Option Nat
  confirmed : Bool
  userId : Nat
deriving DecidableEq, Repr

/-- The `changes` object accumulated by `updateIncome`; a `none` field was
not present in the update payload.  `tax_rate`/`tax_amount` never appear. -/
structure IncomeChanges where
  amount : Option ℚ := none
  base_amount : Option ℚ := none
  description : Option Str := none
  date : Option Str := none
  client_id : Option Nat := none
  category_id : Option Nat := none
deriving DecidableEq, Repr

def IncomeChanges.isEmpty (c : IncomeChanges) : Bool :=
  c.amount.isNone && c.base_amount.isNone && c.description.isNone &&
    c.date.isNone && c.client_id.isNone && c.category_id.isNone

/-- Apply an update payload to a row (fields absent from the payload keep
their current values). -/
def applyIncomeChanges (c : IncomeChanges) (r : IncomeRow) : IncomeRow :=
  { r with
    amount := c.amount.getD r.amount
    base_amount := c.base_amount.getD r.base_amount
    description := c.description.getD r.description
    date := c.date.getD r.date
    client_id := match c.client_id with | some i => some i | none => r.client_id
    category_id := match c.category_id with | some i => some i | none => r.category_id }

/-- The change set `updateIncome` computes from its input and the loaded row. -/
def incomeChangesOf (input : UpdateIncomeInput) (existing : IncomeRow) : IncomeChanges :=
  let c0 : IncomeChanges := {}
  let c1 :=
    match input.amount with
    | some a => if a ≠ existing.amount then { c0 with amount := some a, base_amount := some a } else c0
    | none => c0
  let c2 :=
    match input.description with
    | some d => if d ≠ existing.description then { c1 with description := some d } else c1
    | none => c1
  let c3 :=
    match input.date with
    | some d => if d ≠ existing.date then { c2 with date := some d } else c2
    | none => c2
  let c4 :=
    match input.clientId with
    | some i => if some i ≠ existing.client_id then { c3 with client_id := some i } else c3
    | none => c3
  match input.categoryId with
  | some i => if some i ≠ existing.category_id then { c4 with category_id := some i } else c4
  | none => c4

inductive UpdateIncomeResult where
  | notFound (msg : Str)
  | noChanges (message : Str)
  | preview (incomeId : Nat) (current : IncomeRow) (changes : IncomeChanges) (message : Str)
  | success (incomeId : Nat) (changes : IncomeChanges) (message : Str)
  | error (msg : Str)
deriving DecidableEq, Repr

def updateIncomeExec (input : UpdateIncomeInput) (st : Store) :
    UpdateIncomeResult × Store :=
  match single (st.income.filter (fun r => r.id == input.incomeId && r.user_id == input.userId)) with
  | none => (UpdateIncomeResult.notFound "Income record not found".toList, st)
  | some existing =>
    let changes := incomeChangesOf input existing
    if changes.isEmpty then
      (UpdateIncomeResult.noChanges
        "No changes to apply. Values are the same as current.".toList, st)
    else if input.confirmed = false then
      (UpdateIncomeResult.preview existing.id existing changes
        "Review the changes above. Say 'confirm' to apply.".toList, st)
    else
      (UpdateIncomeResult.success existing.id changes
        "Income record updated successfully!".toList,
        { st with income := st.income.map (fun r =>
            if r.id == input.incomeId then applyIncomeChanges changes r else r) })

/-!  ## searchClients (client-tools module) -/

structure SearchClientsInput where
  searchTerm : Str
  limit : Nat
  userId : Nat
deriving DecidableEq, Repr

structure ClientMatch where
  id : Nat
  name : Str
  email : Option Str
  phone : Option Str
  companyName : Option Str
  address : Option Str
  score : ℤ
  matchedOn : Str
deriving DecidableEq, Repr

/-- `searchClients` always reports `status: "success"`; absence of matches
is a normal outcome carrying a message, never an error. -/
inductive SearchClientsResult where
  | success (matchList : List ClientMatch) (searchType : SearchType)
      (bestMatch : Option ClientMatch) (message : Option Str)
deriving DecidableEq, Repr

/-- The `matches` field of the result (named `matchList` here because
`matches` is reserved). -/
def SearchClientsResult.matchList : SearchClientsResult → List ClientMatch
  | SearchClientsResult.success ms _ _ _ => ms

def mkClientMatch (c : ClientRow) (score : ℤ) (matchedOn : Str) : ClientMatch :=
  { id := c.id, name := c.name, email := c.email, phone := c.phone,
    companyName := c.company_name, address := c.address,
    score := score, matchedOn := matchedOn }

/-- Name-branch scoring of one candidate: best of the name and company-name
match scores, with the address-substring fallback worth 80 when both are
below 50. -/
def clientCandidateScore (searchTerm : Str) (c : ClientRow) : ℤ × Str :=
  let term := lowerStr searchTerm
  let nameScore := calculateMatchScore searchTerm c.name
  let companyScore :=
    match c.company_name with
    | some cn => calculateMatchScore searchTerm cn
    | none => 0
  let addressMatch :=
    match c.address with
    | some a => strIncludes (lowerStr a) term
    | none => false
  let bestScore := max nameScore companyScore
  let matchedOn := if companyScore ≤ nameScore then "name".toList else "company_name".toList
  if addressMatch = true ∧ bestScore < 50 then (80, "address".toList)
  else (bestScore, matchedOn)

/-- The branch-dependent raw match list of `searchClients` (before sorting
and truncation): email and phone searches filter on the respective field
only; name searches score every candidate and keep those at 50 or above. -/
def searchClientsMatches (searchType : SearchType) (searchTerm : Str)
    (clients : List ClientRow) : List ClientMatch :=
  let term := lowerStr searchTerm
  match searchType with
  | SearchType.email =>
    (clients.filter (fun c =>
      match c.email with
      | some e => strIncludes (lowerStr e) term
      | none => false)).map (fun c =>
        mkClientMatch c
          (match c.email with
           | some e => if lowerStr e == term then (100 : ℤ) else 90
           | none => 90)
          "email".toList)
  | SearchType.phone =>
    let searchDigits := stripPhoneChars term
    (clients.filter (fun c =>
      match c.phone with
      | some p =>
        let phoneDigits := stripPhoneChars p
        strIncludes phoneDigits searchDigits || strIncludes searchDigits phoneDigits
      | none => false)).map (fun c => mkClientMatch c 90 "phone".toList)
  | SearchType.name =>
    (clients.map (fun c =>
      let sc := clientCandidateScore searchTerm c
      mkClientMatch c sc.1 sc.2)).filter (fun m => decide (50 ≤ m.score))

def searchClientsExec (input : SearchClientsInput) (st : Store) : SearchClientsResult :=
  let searchType := detectSearchType input.searchTerm
  let clients :=
    ((st.clients.filter (fun c => c.user_id == input.userId && c.deleted_at.isNone)).take 100)
  match clients with
  | [] =>
    SearchClientsResult.success [] searchType none
      (some "No clients found. Would you like to create one?".toList)
  | _ :: _ =>
    let found := searchClientsMatches searchType input.searchTerm clients
    let sorted := (sortByScoreDesc (fun m => m.score) found).take input.limit
    match sorted with
    | [] =>
      SearchClientsResult.success [] searchType none
        (some ("No clients matching \"".toList ++ input.searchTerm ++
          "\". Would you like to create a new client?".toList))
    | m0 :: _ =>
      SearchClientsResult.success sorted searchType
        (if 80 ≤ m0.score then some m0 else none) none

/-!  ## createInvoice (src/lib/ai/tools/invoices.ts lines 308-600) -/

structure LineItemInput where
  description : Str
  quantity : ℚ
  rate : ℚ
  taxRate : Option ℚ
deriving DecidableEq, Repr

structure CreateInvoiceInput where
  clientId : Nat
  items : List LineItemInput
  date : Option Str
  dueDate : Option Str
  notes : Option Str
  currency : Option Str
  projectId : Option Nat
  incomeCategoryId : Option Nat
  makeRecurring : Bool
  frequency : Option Str
  recurringEndDate : Option Str
  confirmed : Bool
  userId : Nat
deriving DecidableEq, Repr

/-- One entry of `calculatedItems`: net = quantity × rate, per-item tax rate
defaulting to the user's rate, tax = net × rate / 100, gross = net + tax. -/
def calcInvoiceItem (defaultTaxRate : ℚ) (item : LineItemInput) : CalcItem :=
  let netAmount := item.quantity * item.rate
  let itemTaxRate := item.taxRate.getD defaultTaxRate
  let taxAmount := netAmount * itemTaxRate / 100
  let grossAmount := netAmount + taxAmount
  { description := item.description
    quantity := item.quantity
    rate := item.rate
    amount := netAmount
    tax_rate := itemTaxRate
    tax_amount := taxAmount
    net_amount := netAmount
    gross_amount := grossAmount }

structure PreviewItem where
  description : Str
  quantity : ℚ
  rate : ℚ
  amount : ℚ
  taxRate : ℚ
  taxAmount : ℚ
deriving DecidableEq, Repr

structure InvoicePreview where
  invoiceNumber : Str
  client : Str
  clientCompany : Option Str
  date : Str
  dueDate : Str
  items : List PreviewItem
  subtotal : ℚ
  taxAmount : ℚ
  total : ℚ
  currency : Str
  notes : Option Str
deriving DecidableEq, Repr

inductive CreateInvoiceResult where
  | preview (p : InvoicePreview) (message : Str)
  | success (id : Nat) (number : Str) (total : ℚ) (currency : Str)
      (isRecurring : Bool) (frequency : Option Str) (message : Str)
  | error (msg : Str)
deriving DecidableEq, Repr

def createInvoiceExec (env : Env) (input : CreateInvoiceInput) (st : Store) :
    CreateInvoiceResult × Store :=
  let eff := getEffectiveUserId input.userId st
  let userSettings := single (st.user_settings.filter (fun r => r.user_id == eff))
  let invoiceSettings := single (st.invoice_settings.filter (fun r => r.user_id == eff))
  let baseCurrency := orStr (userSettings.bind (fun r => r.base_currency)) "USD".toList
  let defaultTaxRate := (invoiceSettings.bind (fun r => r.default_tax_rate)).getD 0
  let paymentTerms :=
    match invoiceSettings.bind (fun r => r.payment_terms) with
    | some n => if n = 0 then 30 else n
    | none => 30
  let invoiceNumber := env.nextInvoiceNumber eff st
  let invoiceDate := orStr input.date env.today
  let calculatedDueDate := orStr input.dueDate (env.calcDueDate invoiceDate paymentTerms)
  let calculatedItems := input.items.map (calcInvoiceItem defaultTaxRate)
  let subtotal := calculatedItems.foldl (fun s it => s + it.net_amount) 0
  let totalTax := calculatedItems.foldl (fun s it => s + it.tax_amount) 0
  let total := subtotal + totalTax
  let client := single (st.clients.filter (fun c => c.id == input.clientId))
  if input.confirmed = false then
    (CreateInvoiceResult.preview
      { invoiceNumber := invoiceNumber
        client :=
          match client with
          | some c => if c.name.isEmpty then "Unknown".toList else c.name
          | none => "Unknown".toList
        clientCompany := client.bind (fun c => c.company_name)
        date := invoiceDate
        dueDate := calculatedDueDate
        items := calculatedItems.map (fun it =>
          { description := it.description, quantity := it.quantity, rate := it.rate,
            amount := it.gross_amount, taxRate := it.tax_rate, taxAmount := it.tax_amount })
        subtotal := subtotal
        taxAmount := totalTax
        total := total
        currency := orStr input.currency baseCurrency
        notes := input.notes }
      "Preview ready. Say 'confirm' to create this invoice.".toList, st)
  else
    let invRow : InvoiceRow :=
      { id := st.seq
        user_id := eff
        invoice_number := invoiceNumber
        client_id := some input.clientId
        date := invoiceDate
        due_date := calculatedDueDate
        status := "draft".toList
        subtotal := subtotal
        tax_rate := defaultTaxRate
        tax_amount := totalTax
        total := total
        balance_due := some total
        amount_paid := none
        currency := orStr input.currency baseCurrency
        notes := jsOrNull input.notes
        project_id := input.projectId
        income_category_id := input.incomeCategoryId
        exchange_rate := 1
        base_amount := subtotal
        paid_date := none
        actual_paid_date := none
        payment_locked_at := none
        deleted_at := none }
    let st1 :=
      { st with invoices := st.invoices ++ [invRow], seq := st.seq + 1 }
    let st2 :=
      { st1 with invoice_items := st1.invoice_items ++ calculatedItems.map (fun (it : CalcItem) =>
          ({ invoice_id := invRow.id, description := it.description,
             quantity := it.quantity, rate := it.rate, amount := it.amount,
             tax_rate := it.tax_rate, tax_amount := it.tax_amount,
             net_amount := it.net_amount,
             gross_amount := it.gross_amount } : InvoiceItemRow)) }
    let st3 :=
      match single (st2.invoice_settings.filter (fun r => r.user_id == eff)) with
      | some currentSettings =>
        let nn := (match currentSettings.next_number with
          | some n => if n = 0 then 1 else n
          | none => 1) + 1
        { st2 with invoice_settings := st2.invoice_settings.map (fun (r : InvoiceSettingsRow) =>
            if r.user_id == eff then { r with next_number := some nn } else r) }
      | none => st2
    let freqData :=
      if input.makeRecurring then
        match input.frequency with
        | some f => if f.isEmpty then none else some f
        | none => none
      else none
    let recState :=
      match freqData with
      | some f =>
        let recRow : RecurringRow :=
          { id := st3.seq
            user_id := eff
            invoice_id := invRow.id
            client_id := input.clientId
            template_data :=
              { items := calculatedItems, subtotal := subtotal,
                tax_rate := defaultTaxRate, tax_amount := totalTax, total := total,
                currency := orStr input.currency baseCurrency,
                notes := jsOrNull input.notes, payment_terms := paymentTerms,
                income_category_id := input.incomeCategoryId }
            frequency := f
            next_date := env.calcNextDate invoiceDate f
            end_date := jsOrNull input.recurringEndDate
            is_active := true }
        ({ st3 with
            recurring_invoices := st3.recurring_invoices ++ [recRow]
            seq := st3.seq + 1 }, true)
      | none => (st3, false)
    (CreateInvoiceResult.success invRow.id invoiceNumber total
      (orStr input.currency baseCurrency) recState.2
      (if recState.2 then input.frequency else none)
      ("Invoice ".toList ++ invoiceNumber ++ " created".toList), recState.1)

/-!  ## updateInvoice (src/lib/ai/tools/invoices.ts lines 1521-1632)

The JS preview payload is a field-keyed `{old, new}` map; the model carries
the computed change set, from which that map is derived. -/

structure UpdateInvoiceInput where
  invoiceId : Option Nat
  invoiceNumber : Option Str
  date : Option Str
  dueDate : Option Str
  notes : Option Str
  confirmed : Bool
  userId : Nat
deriving DecidableEq, Repr

structure InvoiceChanges where
  date : Option Str := none
  due_date : Option Str := none
  notes : Option Str := none
deriving DecidableEq, Repr

def InvoiceChanges.isEmpty (c : InvoiceChanges) : Bool :=
  c.date.isNone && c.due_date.isNone && c.notes.isNone

def applyInvoiceChanges (c : InvoiceChanges) (r : InvoiceRow) : InvoiceRow :=
  { r with
    date := c.date.getD r.date
    due_date := c.due_date.getD r.due_date
    notes := match c.notes with | some s => some s | none => r.notes }

def invoiceChangesOf (input : UpdateInvoiceInput) (existing : InvoiceRow) :
    InvoiceChanges :=
  let c0 : InvoiceChanges := {}
  let c1 :=
    match input.date with
    | some d => if d ≠ existing.date then { c0 with date := some d } else c0
    | none => c0
  let c2 :=
    match input.dueDate with
    | some d => if d ≠ existing.due_date then { c1 with due_date := some d } else c1
    | none => c1
  match input.notes with
  | some n => if some n ≠ existing.notes then { c2 with notes := some n } else c2
  | none => c2

inductive UpdateInvoiceResult where
  | error (msg : Str)
  | notFound (msg : Str)
  | blocked (errMsg reason suggestion : Str)
  | noChanges (message : Str)
  | preview (invoiceNumber : Str) (changes : InvoiceChanges) (message : Str)
  | success (message : Str)
deriving DecidableEq, Repr

/-- Locate an invoice by id, else by number, scoped to the effective user
and live rows; `none` in both positions is the "please provide" error. -/
def findInvoice (invoiceId : Option Nat) (invoiceNumber : Option Str)
    (eff : Nat) (st : Store) : Option (Option InvoiceRow) :=
  let base := st.invoices.filter (fun r => r.user_id == eff && r.deleted_at.isNone)
  match invoiceId with
  | some i => some (single (base.filter (fun r => r.id == i)))
  | none =>
    if truthy invoiceNumber then
      some (single (base.filter (fun r => r.invoice_number == invoiceNumber.getD [])))
    else none

def updateInvoiceExec (input : UpdateInvoiceInput) (st : Store) :
    UpdateInvoiceResult × Store :=
  let eff := getEffectiveUserId input.userId st
  match findInvoice input.invoiceId input.invoiceNumber eff st with
  | none => (UpdateInvoiceResult.error "Please provide invoice ID or number".toList, st)
  | some none => (UpdateInvoiceResult.notFound "Invoice not found".toList, st)
  | some (some existing) =>
    if existing.status = "paid".toList then
      (UpdateInvoiceResult.blocked
        "Cannot modify paid invoice".toList
        ("Once an invoice is marked as paid, it cannot be edited or deleted " ++
          "for HMRC compliance. This ensures your financial records remain " ++
          "accurate for tax purposes.").toList
        ("If you need to make corrections, create a credit note or a new " ++
          "invoice instead.").toList, st)
    else
      let changes := invoiceChangesOf input existing
      if changes.isEmpty then
        (UpdateInvoiceResult.noChanges "No changes to apply.".toList, st)
      else if input.confirmed = false then
        (UpdateInvoiceResult.preview existing.invoice_number changes
          ("Review changes for ".toList ++ existing.invoice_number ++
            ". Say 'confirm' to apply.".toList), st)
      else
        (UpdateInvoiceResult.success
          ("Invoice ".toList ++ existing.invoice_number ++
            " updated successfully!".toList),
          { st with invoices := st.invoices.map (fun r =>
              if r.id == existing.id then applyInvoiceChanges changes r else r) })

/-!  ## markInvoicePaid (src/lib/ai/tools/invoices.ts lines 606-754) -/

structure MarkPaidInput where
  invoiceId : Option Nat
  invoiceNumber : Option Str
  paymentAmount : Option ℚ
  paymentDate : Option Str
  paymentMethod : Option Str
  referenceNumber : Option Str
  confirmed : Bool
  userId : Nat
deriving DecidableEq, Repr

inductive MarkPaidResult where
  | error (msg : Str)
  | notFound (msg : Str)
  | alreadyPaid (message : Str)
  | preview (invoiceNumber : Str) (client : Str) (currentBalance : ℚ)
      (paymentAmount : ℚ) (paymentDate : Str) (paymentMethod : Str)
      (newBalance : ℚ) (newStatus : Str) (currency : Str) (message : Str)
  | success (invoiceNumber : Str) (amountPaid : ℚ) (newBalance : ℚ)
      (newStatus : Str) (currency : Str) (message : Str)
deriving DecidableEq, Repr

/-- `invoice.balance_due || invoice.total`: a null or zero balance falls
back to the total. -/
def effectiveBalance (inv : InvoiceRow) : ℚ :=
  match inv.balance_due with
  | some b => if b = 0 then inv.total else b
  | none => inv.total

/-- `paymentAmount || currentBalance`. -/
def effectivePayment (paymentAmount : Option ℚ) (currentBalance : ℚ) : ℚ :=
  match paymentAmount with
  | some a => if a = 0 then currentBalance else a
  | none => currentBalance

def markInvoicePaidExec (env : Env) (input : MarkPaidInput) (st : Store) :
    MarkPaidResult × Store :=
  let eff := getEffectiveUserId input.userId st
  match findInvoice input.invoiceId input.invoiceNumber eff st with
  | none => (MarkPaidResult.error "Please provide invoice ID or number".toList, st)
  | some none => (MarkPaidResult.notFound "Invoice not found".toList, st)
  | some (some invoice) =>
    if invoice.status = "paid".toList then
      (MarkPaidResult.alreadyPaid
        ("Invoice ".toList ++ invoice.invoice_number ++
          " is already fully paid.".toList), st)
    else
      let currentBalance := effectiveBalance invoice
      let amount := effectivePayment input.paymentAmount currentBalance
      let paidDate := orStr input.paymentDate env.today
      if currentBalance < amount then
        (MarkPaidResult.error
          ("Payment amount (".toList ++ env.numToStr amount ++
            ") exceeds balance due (".toList ++ env.numToStr currentBalance ++
            ")".toList), st)
      else
        let clientName := joinedClientName st invoice.client_id "client".toList
        let newBalance := currentBalance - amount
        let newStatus :=
          if newBalance ≤ 0 then "paid".toList else "partially_paid".toList
        if input.confirmed = false then
          (MarkPaidResult.preview invoice.invoice_number clientName currentBalance
            amount paidDate (orStr input.paymentMethod "Not specified".toList)
            (max 0 newBalance) newStatus invoice.currency
            ("Ready to record payment of ".toList ++ env.numToStr amount ++
              " for invoice ".toList ++ invoice.invoice_number), st)
        else
          let payRow : PaymentRow :=
            { invoice_id := invoice.id
              user_id := eff
              amount := amount
              payment_date := paidDate
              payment_method := jsOrNull input.paymentMethod
              reference_number := jsOrNull input.referenceNumber }
          let newAmountPaid := (invoice.total - currentBalance) + amount
          let st' :=
            { st with
              invoice_payments := st.invoice_payments ++ [payRow]
              invoices := st.invoices.map (fun r =>
                if r.id == invoice.id then
                  { r with
                    status := newStatus
                    amount_paid := some newAmountPaid
                    balance_due := some (max 0 newBalance)
                    paid_date := if newStatus = "paid".toList then some paidDate else none
                    actual_paid_date :=
                      if newStatus = "paid".toList then some paidDate else none
                    payment_locked_at := some env.nowTs }
                else r) }
          (MarkPaidResult.success invoice.invoice_number amount (max 0 newBalance)
            newStatus invoice.currency
            ("Payment recorded for ".toList ++ invoice.invoice_number), st')

/-!  ## deleteRecurring (src/lib/ai/tools/invoices.ts lines 1088-1178)

Note the apply step: `supabase.from("recurring_invoices").delete()` — a
physical row removal, unlike the project sub-entity delete tools below. -/

structure DeleteRecurringInput where
  recurringId : Nat
  confirmed : Bool
  userId : Nat
deriving DecidableEq, Repr

inductive DeleteRecurringResult where
  | notFound (msg : Str)
  | preview (recurringId : Nat) (client : Str) (frequency : Str)
      (nextDate : Str) (amount : ℚ) (currency : Str) (message : Str)
  | success (recurringId : Nat) (client : Str) (message : Str)
deriving DecidableEq, Repr

def deleteRecurringExec (input : DeleteRecurringInput) (st : Store) :
    DeleteRecurringResult × Store :=
  let eff := getEffectiveUserId input.userId st
  match single (st.recurring_invoices.filter
      (fun r => r.id == input.recurringId && r.user_id == eff)) with
  | none => (DeleteRecurringResult.notFound "Recurring invoice not found".toList, st)
  | some recurring =>
    let clientName := joinedClientName st (some recurring.client_id) "Unknown".toList
    if input.confirmed = false then
      (DeleteRecurringResult.preview recurring.id clientName recurring.frequency
        recurring.next_date recurring.template_data.total
        recurring.template_data.currency
        ("This will permanently cancel the ".toList ++ recurring.frequency ++
          " recurring invoice for ".toList ++ clientName ++
          ". Already-created invoices will be kept. Say 'confirm' to proceed.".toList),
        st)
    else
      (DeleteRecurringResult.success recurring.id clientName
        ("Recurring invoice for ".toList ++ clientName ++
          " cancelled. Past invoices are kept.".toList),
        { st with
            recurring_invoices :=
              st.recurring_invoices.filter (fun r => !(r.id == input.recurringId)) })

/-!  ## Project sub-entity delete tools (soft deletes)

`deleteMilestone`, `deleteGoal`, `deleteTimeEntry`, `deleteProjectNote`:
load by id + user id, preview unless confirmed, then set the `deleted_at`
tombstone via an update — the row is never removed. -/

structure SubEntityDeleteInput where
  entityId : Nat
  confirmed : Bool
  userId : Nat
deriving DecidableEq, Repr

inductive SoftDeleteResult where
  | error (message : Str)
  | preview (message : Str)
  | success (message : Str)
deriving DecidableEq, Repr

def deleteMilestoneExec (env : Env) (input : SubEntityDeleteInput) (st : Store) :
    SoftDeleteResult × Store :=
  match single (st.project_milestones.filter
      (fun m => m.id == input.entityId && m.user_id == input.userId)) with
  | none => (SoftDeleteResult.error "Milestone not found".toList, st)
  | some milestone =>
    if input.confirmed = false then
      (SoftDeleteResult.preview
        ("Delete milestone \"".toList ++ milestone.name ++
          "\"? Say 'confirm' to proceed.".toList), st)
    else
      (SoftDeleteResult.success
        ("Milestone \"".toList ++ milestone.name ++ "\" deleted!".toList),
        { st with project_milestones := st.project_milestones.map (fun m =>
            if m.id == input.entityId then { m with deleted_at := some env.nowTs }
            else m) })

def deleteGoalExec (env : Env) (input : SubEntityDeleteInput) (st : Store) :
    SoftDeleteResult × Store :=
  match single (st.project_goals.filter
      (fun g => g.id == input.entityId && g.user_id == input.userId)) with
  | none => (SoftDeleteResult.error "Goal not found".toList, st)
  | some goal =>
    if input.confirmed = false then
      (SoftDeleteResult.preview
        ("Delete goal \"".toList ++ goal.title ++ "\"? Say 'confirm' to proceed.".toList),
        st)
    else
      (SoftDeleteResult.success
        ("Goal \"".toList ++ goal.title ++ "\" deleted!".toList),
        { st with project_goals := st.project_goals.map (fun g =>
            if g.id == input.entityId then { g with deleted_at := some env.nowTs }
            else g) })

def deleteTimeEntryExec (env : Env) (input : SubEntityDeleteInput) (st : Store) :
    SoftDeleteResult × Store :=
  match single (st.project_time_entries.filter
      (fun t => t.id == input.entityId && t.user_id == input.userId)) with
  | none => (SoftDeleteResult.error "Time entry not found".toList, st)
  | some entry =>
    if input.confirmed = false then
      (SoftDeleteResult.preview
        ("Delete ".toList ++ env.numToStr entry.hours ++ " hours from ".toList ++
          env.formatDate entry.date ++ "? Say 'confirm' to proceed.".toList), st)
    else
      (SoftDeleteResult.success "Time entry deleted!".toList,
        { st with project_time_entries := st.project_time_entries.map (fun t =>
            if t.id == input.entityId then { t with deleted_at := some env.nowTs }
            else t) })

def deleteProjectNoteExec (env : Env) (input : SubEntityDeleteInput) (st : Store) :
    SoftDeleteResult × Store :=
  match single (st.project_notes.filter
      (fun n => n.id == input.entityId && n.user_id == input.userId)) with
  | none => (SoftDeleteResult.error "Note not found".toList, st)
  | some note =>
    if input.confirmed = false then
      (SoftDeleteResult.preview
        ("Delete ".toList ++ note.type ++ " \"".toList ++ note.title ++
          "\"? Say 'confirm' to proceed.".toList), st)
    else
      (SoftDeleteResult.success "Note deleted!".toList,
        { st with project_notes := st.project_notes.map (fun n =>
            if n.id == input.entityId then { n with deleted_at := some env.nowTs }
            else n) })

/-!  ## Iteration helper and result projections -/

/-- Run a tool call `n` times in sequence, collecting the results. -/
def iterTool {R : Type} (f : Store → R × Store) : Nat → Store → List R × Store
  | 0, st => ([], st)
  | n + 1, st =>
    let step := f st
    let rest := iterTool f n step.2
    (step.1 :: rest.1, rest.2)

/-- The JS `status` string of a `markInvoicePaid` result. -/
def MarkPaidResult.statusTag : MarkPaidResult → Str
  | MarkPaidResult.error _ => "error".toList
  | MarkPaidResult.notFound _ => "not_found".toList
  | MarkPaidResult.alreadyPaid _ => "already_paid".toList
  | MarkPaidResult.preview _ _ _ _ _ _ _ _ _ _ => "preview".toList
  | MarkPaidResult.success _ _ _ _ _ _ => "success".toList

/-- The JS `status` string of an `updateInvoice` result. -/
def UpdateInvoiceResult.statusTag : UpdateInvoiceResult → Str
  | UpdateInvoiceResult.error _ => "error".toList
  | UpdateInvoiceResult.notFound _ => "not_found".toList
  | UpdateInvoiceResult.blocked _ _ _ => "blocked".toList
  | UpdateInvoiceResult.noChanges _ => "no_changes".toList
  | UpdateInvoiceResult.preview _ _ _ => "preview".toList
  | UpdateInvoiceResult.success _ => "success".toList

/-- The suggestion list carried by the preview's `client` field. -/
def ClientField.suggestionList : ClientField → List Suggestion
  | ClientField.unmatched _ s => s
  | _ => []

/-!  ## Concrete fixtures for witnesses and counterexamples -/

/-- A concrete environment (external collaborators). -/
def envC : Env :=
  { today := "2026-01-01".toList
    nowTs := 1000
    nextInvoiceNumber := fun _ _ => "INV-1".toList
    calcDueDate := fun d _ => d
    calcNextDate := fun d _ => d
    formatCurrency := fun _ c => c
    formatDate := fun d => d
    numToStr := fun _ => "n".toList }

/-- An empty datastore. -/
def emptyStore : Store :=
  { user_settings := [], invoice_settings := [], clients := [], categories := []
    income := [], invoices := [], invoice_items := [], invoice_payments := []
    recurring_invoices := [], project_milestones := [], project_goals := []
    project_time_entries := [], project_notes := [], team_members := [], seq := 0 }

/-- A fully paid invoice (id 7, user 1). -/
def invPaid : InvoiceRow :=
  { id := 7, user_id := 1, invoice_number := "INV-7".toList, client_id := none
    date := "2025-11-01".toList, due_date := "2025-12-01".toList
    status := "paid".toList, subtotal := 100, tax_rate := 0, tax_amount := 0
    total := 100, balance_due := some 0, amount_paid := some 100
    currency := "USD".toList, notes := none, project_id := none
    income_category_id := none, exchange_rate := 1, base_amount := 100
    paid_date := some ("2025-11-20".toList), actual_paid_date := none
    payment_locked_at := none, deleted_at := none }

def stPaid : Store := { emptyStore with invoices := [invPaid] }

/-- `markInvoicePaid` input targeting the paid invoice, `confirmed := true`. -/
def mpPaidInput : MarkPaidInput :=
  { invoiceId := some 7, invoiceNumber := none, paymentAmount := some 10
    paymentDate := none, paymentMethod := none, referenceNumber := none
    confirmed := true, userId := 1 }

/-- `updateInvoice` input targeting the paid invoice, `confirmed := true`. -/
def uiPaidInput : UpdateInvoiceInput :=
  { invoiceId := some 7, invoiceNumber := none, date := some ("2026-02-02".toList)
    dueDate := none, notes := none, confirmed := true, userId := 1 }

/-- An open invoice: total 80, balance due 50 (user 1, id 12). -/
def invOpen : InvoiceRow :=
  { invPaid with
    id := 12
    invoice_number := "INV-12".toList
    status := "sent".toList
    subtotal := 80
    total := 80
    balance_due := some 50
    amount_paid := some 30
    base_amount := 80
    paid_date := none }

def stOpen : Store := { emptyStore with invoices := [invOpen] }

/-- An overpayment attempt on the open invoice (100 against a balance of 50). -/
def mpOverInput : MarkPaidInput :=
  { mpPaidInput with invoiceId := some 12, paymentAmount := some 100 }

/-- An exact payment of the open balance (50 against 50), confirmed. -/
def mpExactInput : MarkPaidInput :=
  { mpPaidInput with invoiceId := some 12, paymentAmount := some 50 }

/-- Settings rows for user 1: USD, default tax rate 15 %. -/
def stSettings : Store :=
  { emptyStore with
    user_settings :=
      [{ user_id := 1, base_currency := some ("USD".toList), is_tax_registered := true }]
    invoice_settings :=
      [{ user_id := 1, default_tax_rate := some 15, payment_terms := some 30
         next_number := some 4 }] }

/-- `addIncome` of 10 at the user's 15 % default rate, confirmed. -/
def aiTaxInput : AddIncomeInput :=
  { amount := 10, description := "consulting".toList, date := some ("2026-01-02".toList)
    clientName := none, categoryName := none, projectId := none
    referenceNumber := none, currency := none, taxRate := none
    confirmed := true, userId := 1 }

/-- A placeholder row (default for list projections in closed statements). -/
def dummyIncomeRow : IncomeRow :=
  { id := 0, user_id := 0, amount := 0, description := [], date := []
    currency := [], tax_rate := 0, tax_amount := 0, client_id := none
    category_id := none, project_id := none, reference_number := none
    exchange_rate := 1, base_amount := 0, deleted_at := none }

/-- An income row of amount 10 at rate 15 with stored tax 2 (user 1, id 3). -/
def incRowOld : IncomeRow :=
  { dummyIncomeRow with
    id := 3
    user_id := 1
    amount := 10
    description := "retainer".toList
    date := "2025-12-01".toList
    currency := "USD".toList
    tax_rate := 15
    tax_amount := 2
    base_amount := 10 }

def stIncome : Store := { stSettings with income := [incRowOld] }

/-- `updateIncome` changing only the amount (10 → 20), confirmed. -/
def uiAmountInput : UpdateIncomeInput :=
  { incomeId := 3, amount := some 20, description := none, date := none
    clientId := none, categoryId := none, confirmed := true, userId := 1 }

/-- A recurring schedule row (id 9, user 1). -/
def recRowC : RecurringRow :=
  { id := 9, user_id := 1, invoice_id := 12, client_id := 2
    template_data :=
      { items := [], subtotal := 80, tax_rate := 0, tax_amount := 0, total := 80
        currency := "USD".toList, notes := none, payment_terms := 30
        income_category_id := none }
    frequency := "monthly".toList, next_date := "2026-02-01".toList
    end_date := none, is_active := true }

def stRec : Store := { emptyStore with recurring_invoices := [recRowC] }

def drInput : DeleteRecurringInput := { recurringId := 9, confirmed := true, userId := 1 }

/-- A milestone row (id 4, user 1). -/
def msRowC : MilestoneRow :=
  { id := 4, user_id := 1, name := "Phase 1".toList, project_id := 2, deleted_at := none }

def stMs : Store := { emptyStore with project_milestones := [msRowC] }

def msInput : SubEntityDeleteInput := { entityId := 4, confirmed := true, userId := 1 }

/-- A client with an email for the email-search fixtures (user 1). -/
def clientJo : ClientRow :=
  { id := 21, user_id := 1, name := "Unrelated Name".toList
    email := some ("jo@x.co".toList), phone := none, company_name := none
    address := none, deleted_at := none }

def stJo : Store := { emptyStore with clients := [clientJo] }

/-- The match `searchClients` produces for `clientJo` on an exact email hit. -/
def joMatch : ClientMatch := mkClientMatch clientJo 100 "email".toList

/-- The email search input `"jo@x.co"` for user 1. -/
def scJoInput : SearchClientsInput := { searchTerm := "jo@x.co".toList, limit := 5, userId := 1 }

/-- A name search for user 1. -/
def scBobInput : SearchClientsInput := { searchTerm := "Bob".toList, limit := 5, userId := 1 }

/-- The `addIncome` fixture in preview mode. -/
def aiPrevInput : AddIncomeInput := { aiTaxInput with confirmed := false }

/-!  ## General lemmas -/

theorem mem_insertScoreDesc {α : Type} (key : α → ℤ) (x a : α) (l : List α) :
    a ∈ insertScoreDesc key x l ↔ a = x ∨ a ∈ l := by
  induction l with
  | nil => simp [insertScoreDesc]
  | cons y ys ih =>
    simp only [insertScoreDesc]
    split
    · simp [List.mem_cons]
    · simp only [List.mem_cons, ih]
      tauto

theorem mem_sortByScoreDesc {α : Type} (key : α → ℤ) (a : α) (l : List α) :
    a ∈ sortByScoreDesc key l ↔ a ∈ l := by
  induction l with
  | nil => simp [sortByScoreDesc]
  | cons y ys ih =>
    have hstep : sortByScoreDesc key (y :: ys) =
        insertScoreDesc key y (sortByScoreDesc key ys) := rfl
    rw [hstep, mem_insertScoreDesc]
    simp [ih]

theorem iterTool_fixed {R : Type} (f : Store → R × Store) (st : Store)
    (h : (f st).2 = st) :
    ∀ n, (iterTool f n st).2 = st ∧ ∀ r ∈ (iterTool f n st).1, r = (f st).1 := by
  intro n
  induction n with
  | zero => simp [iterTool]
  | succ n ih =>
    have hstep : iterTool f (n + 1) st =
        ((f st).1 :: (iterTool f n (f st).2).1, (iterTool f n (f st).2).2) := rfl
    rw [hstep, h]
    refine ⟨ih.1, ?_⟩
    intro r hr
    rcases List.mem_cons.1 hr with h1 | h2
    · exact h1
    · exact ih.2 r h2

theorem addIncomeExec_preview_parts (env : Env) (input : AddIncomeInput) (st : Store)
    (h : input.confirmed = false) :
    (addIncomeExec env input st).2 = st ∧
    ∃ p m w, (addIncomeExec env input st).1 = AddIncomeResult.preview p m w := by
  unfold addIncomeExec
  rw [h]
  simp

theorem createInvoiceExec_preview_parts (env : Env) (input : CreateInvoiceInput)
    (st : Store) (h : input.confirmed = false) :
    (createInvoiceExec env input st).2 = st ∧
    ∃ p m, (createInvoiceExec env input st).1 = CreateInvoiceResult.preview p m := by
  unfold createInvoiceExec
  rw [h]
  simp

/-!  ## Claim theorems -/

/-- C1: the voice-agent dispatcher overwrites any caller-supplied `userId`
with the authenticated session's user id, so the parameters the tool is
executed with carry the session id, and the result of dispatching is
identical to the result of the same call made with the session id. -/
theorem c1_identity_override {V R : Type} (executeVoiceTool : (Str → Option V) → R)
    (parameters : Str → Option V) (suppliedId sessionId : V) :
    safeParams parameters sessionId userIdKey = some sessionId ∧
    executeVoiceTool (safeParams (setParam parameters userIdKey suppliedId) sessionId) =
      executeVoiceTool (safeParams parameters sessionId) := by
  refine ⟨by simp [safeParams, setParam], ?_⟩
  have hsame : safeParams (setParam parameters userIdKey suppliedId) sessionId =
      safeParams parameters sessionId := by
    funext q
    by_cases hq : q = userIdKey <;> simp [safeParams, setParam, hq]
  rw [hsame]

/-- C3: calling `addIncome` or `createInvoice` with `confirmed = false`
returns a preview, performs no datastore write, and repeating the identical
call any number of times leaves the store unchanged with every repetition
returning the same preview result. -/
theorem c3_preview_idempotent :
    (∀ env (input : AddIncomeInput) st, input.confirmed = false →
      (∃ p m w, (addIncomeExec env input st).1 = AddIncomeResult.preview p m w) ∧
      ∀ n, (iterTool (addIncomeExec env input) n st).2 = st ∧
        ∀ r ∈ (iterTool (addIncomeExec env input) n st).1,
          r = (addIncomeExec env input st).1) ∧
    (∀ env (input : CreateInvoiceInput) st, input.confirmed = false →
      (∃ p m, (createInvoiceExec env input st).1 = CreateInvoiceResult.preview p m) ∧
      ∀ n, (iterTool (createInvoiceExec env input) n st).2 = st ∧
        ∀ r ∈ (iterTool (createInvoiceExec env input) n st).1,
          r = (createInvoiceExec env input st).1) := by
  constructor
  · intro env input st h
    obtain ⟨h2, hp⟩ := addIncomeExec_preview_parts env input st h
    exact ⟨hp, iterTool_fixed _ st h2⟩
  · intro env input st h
    obtain ⟨h2, hp⟩ := createInvoiceExec_preview_parts env input st h
    exact ⟨hp, iterTool_fixed _ st h2⟩

/-- C2 (amended): for an invoice whose status is `paid`, `updateInvoice`
returns a `blocked` result with a non-empty reason string and leaves the
store unchanged, regardless of `confirmed`; `markInvoicePaid` on the same
invoice returns an `already_paid` result (with a message, not a `blocked`
tag) and likewise leaves the store unchanged.  Neither ever succeeds. -/
theorem c2_paid_invoice_blocked :
    (∀ (input : UpdateInvoiceInput) st inv,
      findInvoice input.invoiceId input.invoiceNumber
        (getEffectiveUserId input.userId st) st = some (some inv) →
      inv.status = "paid".toList →
      (∃ e r sg, (updateInvoiceExec input st).1 = UpdateInvoiceResult.blocked e r sg ∧
        r ≠ []) ∧
      (updateInvoiceExec input st).2 = st) ∧
    (∀ env (input : MarkPaidInput) st inv,
      findInvoice input.invoiceId input.invoiceNumber
        (getEffectiveUserId input.userId st) st = some (some inv) →
      inv.status = "paid".toList →
      (∃ m, (markInvoicePaidExec env input st).1 = MarkPaidResult.alreadyPaid m) ∧
      (markInvoicePaidExec env input st).2 = st) := by
  constructor
  · intro input st inv hfind hpaid
    have hres : updateInvoiceExec input st =
        (UpdateInvoiceResult.blocked
          "Cannot modify paid invoice".toList
          ("Once an invoice is marked as paid, it cannot be edited or deleted " ++
            "for HMRC compliance. This ensures your financial records remain " ++
            "accurate for tax purposes.").toList
          ("If you need to make corrections, create a credit note or a new " ++
            "invoice instead.").toList, st) := by
      simp only [updateInvoiceExec, hfind, hpaid, eq_self_iff_true, if_true]
    rw [hres]
    exact ⟨⟨_, _, _, rfl, by decide⟩, rfl⟩
  · intro env input st inv hfind hpaid
    have hres : markInvoicePaidExec env input st =
        (MarkPaidResult.alreadyPaid ("Invoice ".toList ++ inv.invoice_number ++
          " is already fully paid.".toList), st) := by
      simp only [markInvoicePaidExec, hfind, hpaid, eq_self_iff_true, if_true]
    rw [hres]
    exact ⟨⟨_, rfl⟩, rfl⟩

/-- C2 counterexample: a `markInvoicePaid` attempt on a paid invoice (an
update attempt the claim covers) reports status `already_paid`, not the
`blocked` status the claim requires for every update attempt. -/
theorem c2_counterexample :
    (markInvoicePaidExec envC mpPaidInput stPaid).1.statusTag = "already_paid".toList ∧
    "already_paid".toList ≠ "blocked".toList := by
  decide

/-- C2 witness: the paid invoice `INV-7` concretely blocks an update. -/
theorem c2_witness :
    (∃ e r sg, (updateInvoiceExec uiPaidInput stPaid).1 =
        UpdateInvoiceResult.blocked e r sg ∧ r ≠ []) ∧
    (updateInvoiceExec uiPaidInput stPaid).2 = stPaid :=
  c2_paid_invoice_blocked.1 uiPaidInput stPaid invPaid (by decide) (by decide)

/-- C5 (amended): the project sub-entity delete tools (milestone, goal,
time entry, note) delete softly — the confirmed apply maps the row to a
copy carrying a `deleted_at` tombstone and preserves the table's length —
but `deleteRecurring` physically removes the schedule row from the table. -/
theorem c5_delete_semantics :
    (∀ (input : DeleteRecurringInput) st rec,
      single (st.recurring_invoices.filter
        (fun r => r.id == input.recurringId &&
          r.user_id == getEffectiveUserId input.userId st)) = some rec →
      input.confirmed = true →
      (deleteRecurringExec input st).2.recurring_invoices =
        st.recurring_invoices.filter (fun r => !(r.id == input.recurringId)) ∧
      ∀ r ∈ (deleteRecurringExec input st).2.recurring_invoices,
        r.id ≠ input.recurringId) ∧
    (∀ env (input : SubEntityDeleteInput) st x,
      single (st.project_milestones.filter
        (fun m => m.id == input.entityId && m.user_id == input.userId)) = some x →
      input.confirmed = true →
      (deleteMilestoneExec env input st).2.project_milestones =
        st.project_milestones.map (fun m =>
          if m.id == input.entityId then { m with deleted_at := some env.nowTs } else m) ∧
      (deleteMilestoneExec env input st).2.project_milestones.length =
        st.project_milestones.length) ∧
    (∀ env (input : SubEntityDeleteInput) st x,
      single (st.project_goals.filter
        (fun g => g.id == input.entityId && g.user_id == input.userId)) = some x →
      input.confirmed = true →
      (deleteGoalExec env input st).2.project_goals =
        st.project_goals.map (fun g =>
          if g.id == input.entityId then { g with deleted_at := some env.nowTs } else g) ∧
      (deleteGoalExec env input st).2.project_goals.length =
        st.project_goals.length) ∧
    (∀ env (input : SubEntityDeleteInput) st x,
      single (st.project_time_entries.filter
        (fun t => t.id == input.entityId && t.user_id == input.userId)) = some x →
      input.confirmed = true →
      (deleteTimeEntryExec env input st).2.project_time_entries =
        st.project_time_entries.map (fun t =>
          if t.id == input.entityId then { t with deleted_at := some env.nowTs } else t) ∧
      (deleteTimeEntryExec env input st).2.project_time_entries.length =
        st.project_time_entries.length) ∧
    (∀ env (input : SubEntityDeleteInput) st x,
      single (st.project_notes.filter
        (fun n => n.id == input.entityId && n.user_id == input.userId)) = some x →
      input.confirmed = true →
      (deleteProjectNoteExec env input st).2.project_notes =
        st.project_notes.map (fun n =>
          if n.id == input.entityId then { n with deleted_at := some env.nowTs } else n) ∧
      (deleteProjectNoteExec env input st).2.project_notes.length =
        st.project_notes.length) := by
  refine ⟨?_, ?_, ?_, ?_, ?_⟩
  · intro input st rec hfind hconf
    have h1 : (deleteRecurringExec input st).2.recurring_invoices =
        st.recurring_invoices.filter (fun r => !(r.id == input.recurringId)) := by
      simp only [deleteRecurringExec, hfind, hconf, Bool.true_eq_false, if_false]
    refine ⟨h1, ?_⟩
    intro r hr hEq
    rw [h1] at hr
    have h2 := (List.mem_filter.1 hr).2
    rw [hEq] at h2
    simp at h2
  · intro env input st x hfind hconf
    have h1 : (deleteMilestoneExec env input st).2.project_milestones =
        st.project_milestones.map (fun y =>
          if y.id == input.entityId then { y with deleted_at := some env.nowTs } else y) := by
      simp only [deleteMilestoneExec, hfind, hconf, Bool.true_eq_false, if_false]
    exact ⟨h1, by rw [h1, List.length_map]⟩
  · intro env input st x hfind hconf
    have h1 : (deleteGoalExec env input st).2.project_goals =
        st.project_goals.map (fun y =>
          if y.id == input.entityId then { y with deleted_at := some env.nowTs } else y) := by
      simp only [deleteGoalExec, hfind, hconf, Bool.true_eq_false, if_false]
    exact ⟨h1, by rw [h1, List.length_map]⟩
  · intro env input st x hfind hconf
    have h1 : (deleteTimeEntryExec env input st).2.project_time_entries =
        st.project_time_entries.map (fun y =>
          if y.id == input.entityId then { y with deleted_at := some env.nowTs } else y) := by
      simp only [deleteTimeEntryExec, hfind, hconf, Bool.true_eq_false, if_false]
    exact ⟨h1, by rw [h1, List.length_map]⟩
  · intro env input st x hfind hconf
    have h1 : (deleteProjectNoteExec env input st).2.project_notes =
        st.project_notes.map (fun y =>
          if y.id == input.entityId then { y with deleted_at := some env.nowTs } else y) := by
      simp only [deleteProjectNoteExec, hfind, hconf, Bool.true_eq_false, if_false]
    exact ⟨h1, by rw [h1, List.length_map]⟩

/-- C5 counterexample: a confirmed `deleteRecurring` on a store holding one
recurring schedule leaves the table empty — the row is physically removed,
not tombstoned. -/
theorem c5_counterexample :
    stRec.recurring_invoices.length = 1 ∧
    (deleteRecurringExec drInput stRec).2.recurring_invoices = [] := by
  decide

/-- C5 witness: a confirmed `deleteMilestone` concretely tombstones row 4. -/
theorem c5_witness :
    (deleteMilestoneExec envC msInput stMs).2.project_milestones =
      stMs.project_milestones.map (fun m =>
        if m.id == msInput.entityId then { m with deleted_at := some envC.nowTs } else m) ∧
    (deleteMilestoneExec envC msInput stMs).2.project_milestones.length =
      stMs.project_milestones.length :=
  c5_delete_semantics.2.1 envC msInput stMs msRowC (by decide) (by decide)

/-- C10: `markInvoicePaid` on a non-paid invoice: a payment exceeding the
current balance (the `balance_due || total` fallback the code uses) returns
an error, inserts no payment row and leaves the store unchanged; otherwise
a confirmed apply updates the invoice so that its status is `paid` exactly
when the new balance (current balance minus payment) is at most zero, its
persisted `balance_due` equals `max 0 (total - amount_paid)`, and exactly
one payment row of the paid amount is appended. -/
theorem c10_markInvoicePaid_balance :
    ∀ env (input : MarkPaidInput) st inv,
      findInvoice input.invoiceId input.invoiceNumber
        (getEffectiveUserId input.userId st) st = some (some inv) →
      inv.status ≠ "paid".toList →
      ((effectiveBalance inv < effectivePayment input.paymentAmount (effectiveBalance inv) →
        (∃ m, (markInvoicePaidExec env input st).1 = MarkPaidResult.error m) ∧
        (markInvoicePaidExec env input st).2 = st) ∧
      (¬ effectiveBalance inv < effectivePayment input.paymentAmount (effectiveBalance inv) →
        input.confirmed = true →
        ∃ sts amtPaid balDue pd,
          (markInvoicePaidExec env input st).2.invoices = st.invoices.map (fun r =>
            if r.id == inv.id then
              { r with
                status := sts
                amount_paid := some amtPaid
                balance_due := some balDue
                paid_date := pd
                actual_paid_date := pd
                payment_locked_at := some env.nowTs }
            else r) ∧
          (markInvoicePaidExec env input st).2.invoice_payments =
            st.invoice_payments ++
              [{ invoice_id := inv.id
                 user_id := getEffectiveUserId input.userId st
                 amount := effectivePayment input.paymentAmount (effectiveBalance inv)
                 payment_date := orStr input.paymentDate env.today
                 payment_method := jsOrNull input.paymentMethod
                 reference_number := jsOrNull input.referenceNumber }] ∧
          (sts = "paid".toList ↔
            effectiveBalance inv -
              effectivePayment input.paymentAmount (effectiveBalance inv) ≤ 0) ∧
          amtPaid = inv.total - effectiveBalance inv +
            effectivePayment input.paymentAmount (effectiveBalance inv) ∧
          balDue = max 0 (inv.total - amtPaid))) := by
  intro env input st inv hfind hpaid
  constructor
  · intro hlt
    have hres : markInvoicePaidExec env input st =
        (MarkPaidResult.error
          ("Payment amount (".toList ++
            env.numToStr (effectivePayment input.paymentAmount (effectiveBalance inv)) ++
            ") exceeds balance due (".toList ++ env.numToStr (effectiveBalance inv) ++
            ")".toList), st) := by
      simp only [markInvoicePaidExec, hfind, if_neg hpaid, if_pos hlt]
    rw [hres]
    exact ⟨⟨_, rfl⟩, rfl⟩
  · intro hge hconf
    refine ⟨if effectiveBalance inv -
        effectivePayment input.paymentAmount (effectiveBalance inv) ≤ 0
      then "paid".toList else "partially_paid".toList,
      inv.total - effectiveBalance inv +
        effectivePayment input.paymentAmount (effectiveBalance inv),
      max 0 (effectiveBalance inv -
        effectivePayment input.paymentAmount (effectiveBalance inv)),
      if (if effectiveBalance inv -
            effectivePayment input.paymentAmount (effectiveBalance inv) ≤ 0
          then "paid".toList else "partially_paid".toList) = "paid".toList
        then some (orStr input.paymentDate env.today) else none, ?_, ?_, ?_, ?_, ?_⟩
    · simp only [markInvoicePaidExec, hfind, if_neg hpaid, if_neg hge, hconf,
        Bool.true_eq_false, if_false]
    · simp only [markInvoicePaidExec, hfind, if_neg hpaid, if_neg hge, hconf,
        Bool.true_eq_false, if_false]
    · split
      · simp only [eq_self_iff_true, true_iff]
        assumption
      · rename_i hgt
        constructor
        · intro hEq
          exact absurd hEq (by decide)
        · intro hle
          exact absurd hle hgt
    · rfl
    · have : inv.total - (inv.total - effectiveBalance inv +
          effectivePayment input.paymentAmount (effectiveBalance inv)) =
          effectiveBalance inv -
            effectivePayment input.paymentAmount (effectiveBalance inv) := by
        ring
      rw [this]

/-- C10 witness: a 100 payment against a balance of 50 (invoice `INV-12`)
concretely errors out and leaves the store untouched. -/
theorem c10_witness :
    (∃ m, (markInvoicePaidExec envC mpOverInput stOpen).1 = MarkPaidResult.error m) ∧
    (markInvoicePaidExec envC mpOverInput stOpen).2 = stOpen :=
  (c10_markInvoicePaid_balance envC mpOverInput stOpen invOpen
    (by decide) (by decide)).1 (by decide)

/-- C4 (amended): after a confirmed `addIncome` apply, the persisted row
satisfies `tax_amount = amount * tax_rate / 100` and
`total_with_tax = amount + amount * tax_rate / 100` exactly — with no
rounding; a confirmed `updateIncome` that changes only the amount updates
just `amount` and `base_amount`, leaving `tax_rate` and the stored
`tax_amount` untouched, so the generated total becomes the new amount plus
the stale tax amount rather than being recomputed from the current rate. -/
theorem c4_derived_totals :
    (∀ env (input : AddIncomeInput) st, input.confirmed = true →
      ∃ r : IncomeRow, (addIncomeExec env input st).2.income = st.income ++ [r] ∧
        r.amount = input.amount ∧
        r.tax_amount = r.amount * r.tax_rate / 100 ∧
        r.total_with_tax = r.amount + r.amount * r.tax_rate / 100) ∧
    (∀ (input : UpdateIncomeInput) st old a,
      single (st.income.filter
        (fun r => r.id == input.incomeId && r.user_id == input.userId)) = some old →
      input.amount = some a → input.description = none → input.date = none →
      input.clientId = none → input.categoryId = none →
      a ≠ old.amount → input.confirmed = true →
      (updateIncomeExec input st).2.income = st.income.map (fun r =>
        if r.id == input.incomeId then { r with amount := a, base_amount := a }
        else r) ∧
      ({ old with amount := a, base_amount := a } : IncomeRow).tax_rate = old.tax_rate ∧
      ({ old with amount := a, base_amount := a } : IncomeRow).tax_amount = old.tax_amount ∧
      ({ old with amount := a, base_amount := a } : IncomeRow).total_with_tax =
        a + old.tax_amount) := by
  constructor
  · intro env input st hconf
    simp only [addIncomeExec, hconf, Bool.true_eq_false, if_false]
    exact ⟨_, rfl, rfl, rfl, rfl⟩
  · intro input st old a hfind hamt hdesc hdate hcl hcat hne hconf
    have hch : incomeChangesOf input old =
        { amount := some a, base_amount := some a } := by
      simp only [incomeChangesOf, hamt, hdesc, hdate, hcl, hcat, if_pos hne]
    have hres : (updateIncomeExec input st).2.income = st.income.map (fun r =>
        if r.id == input.incomeId then applyIncomeChanges (incomeChangesOf input old) r
        else r) := by
      have hne2 : (incomeChangesOf input old).isEmpty = false := by
        rw [hch]
        simp [IncomeChanges.isEmpty]
      simp only [updateIncomeExec, hfind, hne2, Bool.false_eq_true, if_false, hconf,
        Bool.true_eq_false]
    refine ⟨?_, rfl, rfl, ?_⟩
    · rw [hres, hch]
      rfl
    · simp [IncomeRow.total_with_tax]

/-- C4 counterexample: a confirmed `addIncome` of 10 at the user's 15 %
default rate persists `total_with_tax = 11.5`, not the
`10 + round(10 * 15 / 100) = 12` the claim's rounded formula requires. -/
theorem c4_counterexample :
    ((addIncomeExec envC aiTaxInput stSettings).2.income.getLastD dummyIncomeRow).total_with_tax =
      23 / 2 ∧
    (10 : ℚ) + ((jsRound ((10 : ℚ) * 15 / 100) : ℤ) : ℚ) = 12 ∧
    (23 : ℚ) / 2 ≠ 12 := by
  refine ⟨?_, ?_, by norm_num⟩
  · simp only [addIncomeExec, aiTaxInput, stSettings, emptyStore, envC, single, truthy,
      orStr, jsOrNull, List.filter, IncomeRow.total_with_tax]
    norm_num
  · have h1 : ((10 : ℚ) * 15 / 100) = 3 / 2 := by norm_num
    rw [jsRound, h1]
    norm_num

/-- C4 witness: updating income row 3 (amount 10, stored tax 2) to amount 20
concretely rewrites only `amount`/`base_amount` and keeps the stale tax. -/
theorem c4_witness :
    (updateIncomeExec uiAmountInput stIncome).2.income = stIncome.income.map (fun r =>
      if r.id == uiAmountInput.incomeId then { r with amount := 20, base_amount := 20 }
      else r) ∧
    ({ incRowOld with amount := 20, base_amount := 20 } : IncomeRow).tax_rate =
      incRowOld.tax_rate ∧
    ({ incRowOld with amount := 20, base_amount := 20 } : IncomeRow).tax_amount =
      incRowOld.tax_amount ∧
    ({ incRowOld with amount := 20, base_amount := 20 } : IncomeRow).total_with_tax =
      20 + incRowOld.tax_amount :=
  c4_derived_totals.2 uiAmountInput stIncome incRowOld 20
    (by decide) rfl rfl rfl rfl rfl (by decide) rfl

/-!  ## PCM lemmas for C9 -/

theorem pcmReadLoop_output_take :
    ∀ (n : Nat) (buf : List ℚ) (r : Nat), r + n ≤ buf.length →
      (pcmReadLoop n buf r).1 = (buf.drop r).take n := by
  intro n
  induction n with
  | zero => intro buf r _; simp [pcmReadLoop]
  | succ n ih =>
    intro buf r h
    have hr : r < buf.length := by omega
    have hd : buf.drop r = buf.get ⟨r, hr⟩ :: buf.drop (r + 1) := by
      rw [List.drop_eq_getElem_cons hr]
      rfl
    simp only [pcmReadLoop, dif_pos hr]
    rw [ih buf (r + 1) (by omega), hd]
    rfl

theorem pcmReadLoop_mem :
    ∀ (n : Nat) (buf : List ℚ) (r : Nat) (x : ℚ),
      x ∈ (pcmReadLoop n buf r).1 → x = 0 ∨ x ∈ buf := by
  intro n
  induction n with
  | zero => intro buf r x hx; simp [pcmReadLoop] at hx
  | succ n ih =>
    intro buf r x hx
    by_cases hr : r < buf.length
    · simp only [pcmReadLoop, dif_pos hr] at hx
      rcases List.mem_cons.1 hx with h1 | h2
      · right
        rw [h1]
        exact buf.get_mem r hr
      · exact ih buf (r + 1) x h2
    · simp only [pcmReadLoop, dif_neg hr] at hx
      rcases List.mem_cons.1 hx with h1 | h2
      · left; exact h1
      · exact ih buf r x h2

theorem pcmProcess_buffer (n : Nat) (s : PCMState) :
    (pcmProcess n s).2.buffer = s.buffer := by
  unfold pcmProcess
  split <;> rfl

theorem pcmAppend_buffer_sub (xs : List ℚ) (s : PCMState) :
    ∀ x ∈ (pcmAppend xs s).buffer, x ∈ s.buffer ∨ x ∈ xs := by
  intro x hx
  unfold pcmAppend at hx
  split at hx <;> simp only at hx
  · exact List.mem_append.1 (List.drop_subset _ _ hx)
  · exact List.mem_append.1 hx

theorem pcmRun_sources :
    ∀ (ops : List PCMOp) (s : PCMState) (x : ℚ),
      x ∈ (pcmRun ops s).1 → x = 0 ∨ x ∈ s.buffer ∨ x ∈ pcmAppended ops := by
  intro ops
  induction ops with
  | nil => intro s x hx; simp [pcmRun] at hx
  | cons op ops ih =>
    intro s x hx
    cases op with
    | append xs =>
      have h1 := ih (pcmAppend xs s) x hx
      rcases h1 with h | h | h
      · exact Or.inl h
      · rcases pcmAppend_buffer_sub xs s x h with h2 | h2
        · exact Or.inr (Or.inl h2)
        · exact Or.inr (Or.inr (by simp [pcmAppended, h2]))
      · exact Or.inr (Or.inr (by simp [pcmAppended, h]))
    | read n =>
      simp only [pcmRun] at hx
      rcases List.mem_append.1 hx with h | h
      · unfold pcmProcess at h
        split at h
        · left
          exact List.eq_of_mem_replicate h
        · rcases pcmReadLoop_mem n s.buffer s.readIndex x h with h1 | h1
          · exact Or.inl h1
          · exact Or.inr (Or.inl h1)
      · have h2 := ih (pcmProcess n s).2 x h
        rw [pcmProcess_buffer] at h2
        rcases h2 with h3 | h3 | h3
        · exact Or.inl h3
        · exact Or.inr (Or.inl h3)
        · exact Or.inr (Or.inr (by simp [pcmAppended, h3]))

/-- C9 (amended): after `clear`, appending a block `X` at least as long as
the playback-start threshold (7200 samples) and reading `len X` samples
returns exactly `X`; and after a `clear`, whatever operations follow, every
rendered sample is either silence or one of the samples appended after the
clear — no pre-clear sample is ever output. -/
theorem c9_barge_in :
    (∀ (s : PCMState) (X : List ℚ), MIN_BUFFER_TO_START ≤ X.length →
      (pcmProcess X.length (pcmAppend X (pcmClear s))).1 = X) ∧
    (∀ (s : PCMState) (ops : List PCMOp) (x : ℚ),
      x ∈ (pcmRun ops (pcmClear s)).1 → x = 0 ∨ x ∈ pcmAppended ops) := by
  constructor
  · intro s X h
    have h1 : pcmAppend X (pcmClear s) = ⟨X, 0, true⟩ := by
      simp [pcmAppend, pcmClear, COMPACT_THRESHOLD, h]
    rw [h1]
    have h2 : (pcmProcess X.length (⟨X, 0, true⟩ : PCMState)).1 =
        (pcmReadLoop X.length X 0).1 := by
      simp [pcmProcess]
    rw [h2, pcmReadLoop_output_take X.length X 0 (by omega)]
    simp
  · intro s ops x hx
    rcases pcmRun_sources ops (pcmClear s) x hx with h | h | h
    · exact Or.inl h
    · simp [pcmClear] at h
    · exact Or.inr h

/-- C9 counterexample: after `clear`, appending a single sample `5` (below
the 7200-sample start threshold) and reading one sample outputs silence,
not the appended sample. -/
theorem c9_counterexample :
    (pcmProcess 1 (pcmAppend [(5 : ℚ)] (pcmClear ⟨[3], 1, true⟩))).1 = [0] ∧
    ((0 : ℚ) ≠ 5) := by
  decide

/-- C9 witness: a 7200-sample block read back in full after a clear. -/
theorem c9_witness :
    (pcmProcess (List.replicate 7200 (1 : ℚ)).length
      (pcmAppend (List.replicate 7200 (1 : ℚ)) (pcmClear ⟨[], 0, false⟩))).1 =
      List.replicate 7200 (1 : ℚ) :=
  c9_barge_in.1 ⟨[], 0, false⟩ (List.replicate 7200 (1 : ℚ))
    (by rw [List.length_replicate]; decide)

/-- C3 witness: two repeated preview calls on a concrete store return the
same preview and leave the store untouched. -/
theorem c3_witness :
    (iterTool (addIncomeExec envC aiPrevInput) 2 stSettings).2 = stSettings ∧
    ∀ r ∈ (iterTool (addIncomeExec envC aiPrevInput) 2 stSettings).1,
      r = (addIncomeExec envC aiPrevInput stSettings).1 :=
  (c3_preview_idempotent.1 envC aiPrevInput stSettings rfl).2 2

/-!  ## searchClients membership lemmas for C7 and C8 -/

theorem searchClientsExec_matchList_mem (input : SearchClientsInput) (st : Store) :
    ∀ m ∈ (searchClientsExec input st).matchList,
      m ∈ searchClientsMatches (detectSearchType input.searchTerm) input.searchTerm
        ((st.clients.filter
          (fun c => c.user_id == input.userId && c.deleted_at.isNone)).take 100) := by
  intro m hm
  simp only [searchClientsExec] at hm
  split at hm
  · simp [SearchClientsResult.matchList] at hm
  · split at hm
    · simp [SearchClientsResult.matchList] at hm
    · rename_i m0 ms hsorted
      simp only [SearchClientsResult.matchList] at hm
      exact (mem_sortByScoreDesc _ _ _).1 (List.take_subset _ _ hm)

theorem mem_searchClientsMatches_score (ty : SearchType) (searchTerm : Str)
    (clients : List ClientRow) :
    ∀ m ∈ searchClientsMatches ty searchTerm clients, (50 : ℤ) ≤ m.score := by
  intro m hm
  cases ty with
  | email =>
    simp only [searchClientsMatches] at hm
    rcases List.mem_map.1 hm with ⟨c, _, hmc⟩
    rw [← hmc]
    simp only [mkClientMatch]
    rcases hce : c.email with _ | e
    · norm_num
    · split <;> (try split) <;> norm_num
  | phone =>
    simp only [searchClientsMatches] at hm
    rcases List.mem_map.1 hm with ⟨c, _, hmc⟩
    rw [← hmc]
    norm_num [mkClientMatch]
  | name =>
    simp only [searchClientsMatches] at hm
    have h2 := (List.mem_filter.1 hm).2
    exact of_decide_eq_true h2

theorem mem_searchClientsMatches_email (searchTerm : Str) (clients : List ClientRow) :
    ∀ m ∈ searchClientsMatches SearchType.email searchTerm clients,
      ∃ e, m.email = some e ∧ strIncludes (lowerStr e) (lowerStr searchTerm) = true := by
  intro m hm
  simp only [searchClientsMatches] at hm
  rcases List.mem_map.1 hm with ⟨c, hc, hmc⟩
  have hf := (List.mem_filter.1 hc).2
  rcases hce : c.email with _ | e
  · rw [hce] at hf
    simp at hf
  · rw [hce] at hf
    refine ⟨e, ?_, hf⟩
    rw [← hmc]
    simp [mkClientMatch, hce]

/-- C7: `detectSearchType` classifies a term as email exactly when it
contains both `@` and `.`; as phone exactly when it is not email and the
stripped remainder is at least 7 characters, all digits; as name otherwise.
When a client search term classifies as email, every returned match is a
candidate whose email field contains the (lowercased) term, regardless of
name similarity. -/
theorem c7_search_classification :
    (∀ term : Str,
      (detectSearchType term = SearchType.email ↔
        (term.contains '@' && term.contains '.') = true) ∧
      (detectSearchType term = SearchType.phone ↔
        ((term.contains '@' && term.contains '.') = false ∧
          7 ≤ (stripPhoneChars term).length ∧
          (stripPhoneChars term).all Char.isDigit = true)) ∧
      (detectSearchType term = SearchType.name ↔
        ((term.contains '@' && term.contains '.') = false ∧
          ¬(7 ≤ (stripPhoneChars term).length ∧
            (stripPhoneChars term).all Char.isDigit = true)))) ∧
    (∀ (input : SearchClientsInput) (st : Store) m,
      detectSearchType input.searchTerm = SearchType.email →
      m ∈ (searchClientsExec input st).matchList →
      ∃ e, m.email = some e ∧
        strIncludes (lowerStr e) (lowerStr input.searchTerm) = true) := by
  constructor
  · intro term
    unfold detectSearchType
    cases h1 : (term.contains '@' && term.contains '.') with
    | true => simp
    | false =>
      by_cases h2 : 7 ≤ (stripPhoneChars term).length ∧
        (stripPhoneChars term).all Char.isDigit = true
      · simp [h2]
      · rw [if_neg h2]
        exact ⟨⟨fun h => absurd h (by decide), fun hh => absurd hh (by decide)⟩,
          ⟨fun h => absurd h (by decide), fun hh => absurd ⟨hh.2.1, hh.2.2⟩ h2⟩,
          ⟨fun _ => ⟨rfl, h2⟩, fun _ => rfl⟩⟩
  · intro input st m hty hm
    have h1 := searchClientsExec_matchList_mem input st m hm
    rw [hty] at h1
    exact mem_searchClientsMatches_email _ _ m h1

/-- C7 witness: the term `"jo@x.co"` concretely classifies as email, and
the single match returned on a one-client store carries that email. -/
theorem c7_witness :
    ∃ e, joMatch.email = some e ∧
      strIncludes (lowerStr e) (lowerStr scJoInput.searchTerm) = true :=
  c7_search_classification.2 scJoInput stJo joMatch (by decide) (by decide)

theorem mem_addIncomeClientMatch_sugg (cname : Str) (clients : List ClientRow) :
    ∀ s ∈ (addIncomeClientMatch cname clients).2, (50 : ℤ) ≤ s.score := by
  intro s hs
  unfold addIncomeClientMatch at hs
  rcases clients with _ | ⟨c0, cs⟩
  · simp at hs
  · rcases hf : List.find? (fun c => lowerStr c.name == lowerStr cname) (c0 :: cs) with _ | ex
    · rw [hf] at hs
      have h1 := (mem_sortByScoreDesc _ _ _).1 (List.take_subset _ _ hs)
      have h2 := (List.mem_filter.1 h1).2
      exact of_decide_eq_true h2
    · rw [hf] at hs
      simp at hs

/-- C8: the resolver never returns a suggestion scoring below 50 — every
`searchClients` match and every `addIncome` client suggestion scores at
least 50; an empty candidate pool yields a success result with an empty
match list; and a pool in which every candidate scores below 50 yields an
empty match/suggestion list as a normal outcome, not an error. -/
theorem c8_resolver_threshold :
    (∀ (input : SearchClientsInput) (st : Store) m,
      m ∈ (searchClientsExec input st).matchList → (50 : ℤ) ≤ m.score) ∧
    (∀ (input : SearchClientsInput) (st : Store),
      (st.clients.filter
        (fun c => c.user_id == input.userId && c.deleted_at.isNone)).take 100 = [] →
      searchClientsExec input st =
        SearchClientsResult.success [] (detectSearchType input.searchTerm) none
          (some "No clients found. Would you like to create one?".toList)) ∧
    (∀ (cname : Str) (clients : List ClientRow) s,
      s ∈ (addIncomeClientMatch cname clients).2 → (50 : ℤ) ≤ s.score) ∧
    (∀ (input : SearchClientsInput) (st : Store),
      detectSearchType input.searchTerm = SearchType.name →
      (∀ c ∈ (st.clients.filter
          (fun c => c.user_id == input.userId && c.deleted_at.isNone)).take 100,
        (clientCandidateScore input.searchTerm c).1 < 50) →
      (searchClientsExec input st).matchList = []) ∧
    (∀ (cname : Str) (clients : List ClientRow),
      clients.find? (fun c => lowerStr c.name == lowerStr cname) = none →
      (∀ c ∈ clients, calculateLevenshteinScore cname c.name < 50) →
      addIncomeClientMatch cname clients = (none, [])) := by
  refine ⟨?_, ?_, ?_, ?_, ?_⟩
  · intro input st m hm
    exact mem_searchClientsMatches_score _ _ _ m
      (searchClientsExec_matchList_mem input st m hm)
  · intro input st h
    simp [searchClientsExec, h]
  · exact mem_addIncomeClientMatch_sugg
  · intro input st hty hall
    have hempty : searchClientsMatches SearchType.name input.searchTerm
        ((st.clients.filter
          (fun c => c.user_id == input.userId && c.deleted_at.isNone)).take 100) = [] := by
      simp only [searchClientsMatches]
      rw [List.filter_eq_nil_iff]
      intro a ha
      rcases List.mem_map.1 ha with ⟨c, hc, hmc⟩
      rw [← hmc]
      simp only [decide_eq_true_eq, not_le]
      exact hall c hc
    simp only [searchClientsExec, hty, hempty]
    split
    · simp [SearchClientsResult.matchList]
    · simp [sortByScoreDesc, SearchClientsResult.matchList]
  · intro cname clients hfind hall
    unfold addIncomeClientMatch
    rcases clients with _ | ⟨c0, cs⟩
    · rfl
    · rw [hfind]
      have hempty : ((c0 :: cs).map (fun c =>
          Suggestion.mk c.id c.name (calculateLevenshteinScore cname c.name))).filter
            (fun s => decide (50 ≤ s.score)) = [] := by
        rw [List.filter_eq_nil_iff]
        intro a ha
        rcases List.mem_map.1 ha with ⟨c, hc, hmc⟩
        rw [← hmc]
        simp only [decide_eq_true_eq, not_le]
        exact hall c hc
      rw [hempty]
      rfl

/-- C8 witness: searching a concretely empty client pool returns a success
result with no matches. -/
theorem c8_witness :
    searchClientsExec scBobInput emptyStore =
      SearchClientsResult.success [] (detectSearchType scBobInput.searchTerm) none
        (some "No clients found. Would you like to create one?".toList) :=
  c8_resolver_threshold.2.1 scBobInput emptyStore rfl

/-!  ## The dp matrix computes classic Levenshtein distance (for C6) -/

theorem levSpecAux_zero_left (s t : Str) (j : Nat) : levSpecAux s t 0 j = j := by
  simp [levSpecAux]

theorem levSpecAux_succ_zero (s t : Str) (i : Nat) :
    levSpecAux s t (i + 1) 0 = i + 1 := by
  simp [levSpecAux]

theorem levSpecAux_zero_right (s t : Str) (i : Nat) : levSpecAux s t i 0 = i := by
  cases i with
  | zero => exact levSpecAux_zero_left s t 0
  | succ i => exact levSpecAux_succ_zero s t i

theorem levSpecAux_succ_succ (s t : Str) (i j : Nat) :
    levSpecAux s t (i + 1) (j + 1) =
      if s.getD i ' ' = t.getD j ' ' then levSpecAux s t i j
      else 1 + min (levSpecAux s t i (j + 1))
        (min (levSpecAux s t (i + 1) j) (levSpecAux s t i j)) := by
  rw [levSpecAux]

theorem levStepRow_spec (s t : Str) :
    ∀ (u : Str) (k i : Nat), t.drop k = u →
      levStepRow (s.getD i ' ') u (levSpecAux s t i k)
          ((List.range' (k + 1) (t.length - k)).map (levSpecAux s t i))
          (levSpecAux s t (i + 1) k)
        = (List.range' (k + 1) (t.length - k)).map (levSpecAux s t (i + 1)) := by
  intro u
  induction u with
  | nil =>
    intro k i hk
    have hlen : t.length - k = 0 := by
      have := List.length_drop k t
      rw [hk] at this
      simp at this
      omega
    rw [hlen]
    rfl
  | cons y u' ih =>
    intro k i hk
    have hklt : k < t.length := by
      by_contra hge
      have : t.drop k = [] := List.drop_eq_nil_of_le (by omega)
      rw [hk] at this
      cases this
    have hu' : t.drop (k + 1) = u' := by
      have := List.tail_drop t k
      rw [hk] at this
      exact this.symm
    have hy : t.getD k ' ' = y := by
      have h1 : t.drop k ≠ [] := by rw [hk]; simp
      have h2 : (t.drop k).headD ' ' = y := by rw [hk]; rfl
      rw [List.headD_eq_head?, List.head?_drop] at h2
      rw [List.getD_eq_getElem?_getD, h2]
    have hm : t.length - k = (t.length - (k + 1)) + 1 := by omega
    rw [hm, List.range'_succ, List.map_cons, List.map_cons]
    rw [levStepRow]
    have hcell :
        (if s.getD i ' ' == y then levSpecAux s t i k
         else 1 + min (levSpecAux s t i (k + 1))
           (min (levSpecAux s t (i + 1) k) (levSpecAux s t i k))) =
        levSpecAux s t (i + 1) (k + 1) := by
      rw [levSpecAux_succ_succ, hy]
      by_cases hc : s.getD i ' ' = y
      · rw [if_pos hc, if_pos (by exact beq_iff_eq.2 hc)]
      · rw [if_neg hc, if_neg (by simp only [beq_iff_eq]; exact hc)]
    rw [hcell]
    have := ih (k + 1) i hu'
    rw [this]

theorem levRowNext_spec (s t : Str) (i : Nat) :
    levRowNext (s.getD i ' ') t
        ((List.range (t.length + 1)).map (levSpecAux s t i)) (i + 1)
      = (List.range (t.length + 1)).map (levSpecAux s t (i + 1)) := by
  have hrange : List.range (t.length + 1) = 0 :: List.range' 1 t.length := by
    rw [List.range_eq_range', List.range'_succ]
  rw [hrange, List.map_cons, List.map_cons]
  rw [levRowNext]
  simp only [List.headD_cons, List.tail_cons]
  rw [levSpecAux_zero_right]
  have h1 := levStepRow_spec s t t 0 i (by simp)
  rw [Nat.sub_zero] at h1
  rw [levSpecAux_zero_right, levSpecAux_succ_zero] at h1
  rw [h1, levSpecAux_succ_zero]

theorem levFold_spec (s t : Str) :
    ∀ (u : Str) (j : Nat), s.drop j = u → j ≤ s.length →
      levFold t u (j + 1) ((List.range (t.length + 1)).map (levSpecAux s t j))
        = (List.range (t.length + 1)).map (levSpecAux s t s.length) := by
  intro u
  induction u with
  | nil =>
    intro j hj hle
    have : s.length ≤ j := by
      by_contra hlt
      have h1 : s.drop j ≠ [] := by
        apply List.ne_nil_of_length_pos
        rw [List.length_drop]
        omega
      exact h1 hj
    have hj2 : j = s.length := by omega
    rw [levFold, hj2]
  | cons c u' ih =>
    intro j hj hle
    have hjlt : j < s.length := by
      by_contra hge
      have : s.drop j = [] := List.drop_eq_nil_of_le (by omega)
      rw [hj] at this
      cases this
    have hu' : s.drop (j + 1) = u' := by
      have := List.tail_drop s j
      rw [hj] at this
      exact this.symm
    have hc : s.getD j ' ' = c := by
      have h2 : (s.drop j).headD ' ' = c := by rw [hj]; rfl
      rw [List.headD_eq_head?, List.head?_drop] at h2
      rw [List.getD_eq_getElem?_getD, h2]
    rw [levFold, ← hc, levRowNext_spec s t j]
    exact ih (j + 1) hu' (by omega)

/-- The row-by-row dp of the source computes the textbook Levenshtein
distance of the two lowercased strings. -/
theorem levenshteinDistance_eq_levSpecAux (a b : Str) :
    levenshteinDistance a b =
      levSpecAux (lowerStr a) (lowerStr b) (lowerStr a).length (lowerStr b).length := by
  unfold levenshteinDistance
  have h0 : (List.range ((lowerStr b).length + 1)).map
      (levSpecAux (lowerStr a) (lowerStr b) 0) =
      List.range ((lowerStr b).length + 1) := by
    have : levSpecAux (lowerStr a) (lowerStr b) 0 = fun j => j :=
      funext (fun j => levSpecAux_zero_left _ _ j)
    rw [this, List.map_id']
  have h1 := levFold_spec (lowerStr a) (lowerStr b) (lowerStr a) 0 rfl (Nat.zero_le _)
  rw [h0] at h1
  simp only [Nat.zero_add] at h1
  show (levFold (lowerStr b) (lowerStr a) 1
      (List.range ((lowerStr b).length + 1))).getLastD 0 = _
  rw [h1]
  rw [List.range_succ, List.map_append, List.map_cons, List.map_nil]
  rw [List.getLastD_concat]

/-- Closed form of `calculateLevenshteinScore` with the `let`s expanded.
Note that the third branch calls `levenshteinDistance` on the *already
lowercased* strings, exactly as the source does. -/
theorem calculateLevenshteinScore_eq (search target : Str) :
    calculateLevenshteinScore search target =
      if lowerStr search = lowerStr target then 100
      else if strIncludes (lowerStr target) (lowerStr search) ||
          strIncludes (lowerStr search) (lowerStr target) then 90
      else if max (lowerStr search).length (lowerStr target).length = 0 then 100
      else max 0 (jsRound
        ((1 - (levenshteinDistance (lowerStr search) (lowerStr target) : ℚ) /
          ((max (lowerStr search).length (lowerStr target).length : ℕ) : ℚ)) * 100)) := rfl

/-- The rounded-ratio branch always lands in `[0, 100]`. -/
theorem jsRound_ratio_bounds (d L : ℕ) :
    0 ≤ max 0 (jsRound ((1 - (d : ℚ) / (L : ℚ)) * 100)) ∧
    max 0 (jsRound ((1 - (d : ℚ) / (L : ℚ)) * 100)) ≤ 100 := by
  constructor
  · exact le_max_left 0 _
  · apply max_le (by norm_num)
    have hd : (0 : ℚ) ≤ (d : ℚ) / (L : ℚ) := div_nonneg (by positivity) (by positivity)
    have h2 : jsRound ((1 - (d : ℚ) / (L : ℚ)) * 100) < 101 := by
      rw [jsRound]
      apply Int.floor_lt.2
      push_cast
      nlinarith
    omega

/-- C6: `calculateLevenshteinScore` (and the identical `calculateMatchScore`)
always returns an integer in `[0, 100]`, returns `100` on a case-insensitive
match (in particular on the diagonal), returns `90` when one lowered string
contains the other and they are unequal, and otherwise returns the rounded
distance ratio `max 0 (round((1 - d/maxLen) * 100))`, where the dp distance
agrees with textbook unit-cost Levenshtein on the lowercased strings.
(The spec's claim that the score is `100` *exactly when* the strings match
case-insensitively fails: the ratio branch can also round up to `100`; see
the counterexample.) -/
theorem c6_matchScore (a b : Str) :
    (0 ≤ calculateLevenshteinScore a b ∧ calculateLevenshteinScore a b ≤ 100) ∧
    calculateLevenshteinScore a a = 100 ∧
    calculateMatchScore a b = calculateLevenshteinScore a b ∧
    (lowerStr a = lowerStr b → calculateLevenshteinScore a b = 100) ∧
    (lowerStr a ≠ lowerStr b →
      (strIncludes (lowerStr b) (lowerStr a) ||
        strIncludes (lowerStr a) (lowerStr b)) = true →
      calculateLevenshteinScore a b = 90) ∧
    (lowerStr a ≠ lowerStr b →
      (strIncludes (lowerStr b) (lowerStr a) ||
        strIncludes (lowerStr a) (lowerStr b)) = false →
      calculateLevenshteinScore a b =
        max 0 (jsRound
          ((1 - (levenshteinDistance (lowerStr a) (lowerStr b) : ℚ) /
            ((max (lowerStr a).length (lowerStr b).length : ℕ) : ℚ)) * 100))) ∧
    levenshteinDistance a b =
      levSpecAux (lowerStr a) (lowerStr b) (lowerStr a).length (lowerStr b).length := by
  refine ⟨?_, ?_, rfl, ?_, ?_, ?_, levenshteinDistance_eq_levSpecAux a b⟩
  · by_cases h1 : lowerStr a = lowerStr b
    · rw [calculateLevenshteinScore_eq, if_pos h1]
      norm_num
    · by_cases h2 : (strIncludes (lowerStr b) (lowerStr a) ||
          strIncludes (lowerStr a) (lowerStr b)) = true
      · rw [calculateLevenshteinScore_eq, if_neg h1, if_pos h2]
        norm_num
      · rw [calculateLevenshteinScore_eq, if_neg h1, if_neg h2]
        by_cases h3 : max (lowerStr a).length (lowerStr b).length = 0
        · rw [if_pos h3]
          norm_num
        · rw [if_neg h3]
          exact jsRound_ratio_bounds _ _
  · rw [calculateLevenshteinScore_eq, if_pos rfl]
  · intro h
    rw [calculateLevenshteinScore_eq, if_pos h]
  · intro h1 h2
    rw [calculateLevenshteinScore_eq, if_neg h1, if_pos h2]
  · intro h1 h2
    have h2' : ¬ ((strIncludes (lowerStr b) (lowerStr a) ||
        strIncludes (lowerStr a) (lowerStr b)) = true) := by
      rw [h2]
      exact Bool.false_ne_true
    have h3 : max (lowerStr a).length (lowerStr b).length ≠ 0 := by
      intro h0
      apply h1
      rw [Nat.max_eq_zero_iff] at h0
      have ha := List.length_eq_zero.1 h0.1
      have hb := List.length_eq_zero.1 h0.2
      rw [ha, hb]
    rw [calculateLevenshteinScore_eq, if_neg h1, if_neg h2', if_neg h3]

set_option maxRecDepth 8000

/-- C6 counterexample: 200 `'a'`s against 199 `'a'`s and a `'b'` are not
case-insensitively equal, yet the score is `100`: the distance is `1`, the
ratio branch yields `round(99.5) = 100`. So `100` does not characterise a
case-insensitive match. -/
theorem c6_matchScore_counterexample :
    calculateLevenshteinScore (List.replicate 200 'a')
        (List.replicate 199 'a' ++ ['b']) = 100 ∧
      lowerStr (List.replicate 200 'a') ≠
        lowerStr (List.replicate 199 'a' ++ ['b']) := by
  constructor
  · have h1 : ¬ (lowerStr (List.replicate 200 'a') =
        lowerStr (List.replicate 199 'a' ++ ['b'])) := by decide
    have h2 : (strIncludes (lowerStr (List.replicate 199 'a' ++ ['b']))
          (lowerStr (List.replicate 200 'a')) ||
        strIncludes (lowerStr (List.replicate 200 'a'))
          (lowerStr (List.replicate 199 'a' ++ ['b']))) = false := by decide
    have hd : levenshteinDistance (lowerStr (List.replicate 200 'a'))
        (lowerStr (List.replicate 199 'a' ++ ['b'])) = 1 := by decide
    have hl : max (lowerStr (List.replicate 200 'a')).length
        (lowerStr (List.replicate 199 'a' ++ ['b'])).length = 200 := by decide
    rw [calculateLevenshteinScore]
    rw [if_neg h1, h2]
    simp only [Bool.false_eq_true, if_false, hd, hl]
    norm_num [jsRound]
  · decide

/-- C6 witness: `"Acme"` against `"Acme Corp"` is unequal but contained,
so the score is `90`. -/
theorem c6_matchScore_witness :
    calculateLevenshteinScore ("Acme".toList) ("Acme Corp".toList) = 90 :=
  (c6_matchScore ("Acme".toList) ("Acme Corp".toList)).2.2.2.2.1
    (by decide) (by decide)

end SmartCFO
